import Mathlib

/-!
Verification of the `miden-arena` combat engine and arena match state machine.

This file is a shallow embedding of the Rust sources:
  crates/combat-engine/src/{types,elements,champions,damage,combat,pack}.rs
  contracts/arena-account/src/lib.rs

Modelling conventions:
* Machine integers (`u8`/`u16`/`u32`/`u64`) are `Nat`, with explicit `% 2^w`
  at the places the source performs an `as` cast.
* Any execution path on which the Rust program aborts — `assert!`,
  `panic!`, out-of-bounds indexing, or an arithmetic overflow/underflow
  of a plain `+`/`-`/`*` (which aborts under Rust's overflow checks; the
  spec likewise promises checked arithmetic) — is modelled as `Option.none`.
  `saturating_sub` on `Nat` is ordinary truncated subtraction.
* Stateful contract code becomes explicit state passing over a storage
  record, with emitted notes/writes recorded as an effect list in program
  order.
-/

namespace MidenArena

/-- Modulus of `u8`. -/
def U8 : Nat := 256


/-- Modulus of `u16`. -/
def U16 : Nat := 65536


/-- Modulus of `u32`. -/
def U32 : Nat := 4294967296


/-- Modulus of `u64`. -/
def U64 : Nat := 18446744073709551616


/-- Checked `u32` addition: Rust `a + b`, aborting on overflow. -/
def add32 (a b : Nat) : Option Nat :=
  if a + b < U32 then some (a + b) else none


/-- Checked `u8` addition: Rust `a + b` on `u8`, aborting on overflow. -/
def add8 (a b : Nat) : Option Nat :=
  if a + b < U8 then some (a + b) else none


/-- Checked `u64` addition: Rust `a + b` on `u64`, aborting on overflow. -/
def add64 (a b : Nat) : Option Nat :=
  if a + b < U64 then some (a + b) else none


/-- Checked `u64` multiplication: Rust `a * b` on `u64`, aborting on overflow. -/
def mul64 (a b : Nat) : Option Nat :=
  if a * b < U64 then some (a * b) else none


/-- Checked subtraction: Rust `a - b`, aborting on underflow. -/
def subChk (a b : Nat) : Option Nat :=
  if b ≤ a then some (a - b) else none


-- ---------------------------------------------------------------------------
-- types.rs
-- ---------------------------------------------------------------------------

/-- Rust `Element` from types.rs. -/
inductive Element where
  | Fire | Water | Earth | Wind
deriving DecidableEq, Repr


/-- Rust `AbilityType` from types.rs (the 5-way taxonomy). -/
inductive AbilityType where
  | Damage | DamageDot | Heal | Buff | Debuff
deriving DecidableEq, Repr


/-- Rust `StatType` from types.rs. -/
inductive StatType where
  | Defense | Speed | Attack
deriving DecidableEq, Repr


/-- Rust `StatType as u8` (the `#[repr(u8)]` discriminant). -/
def StatType.toNat : StatType → Nat
  | .Defense => 0
  | .Speed => 1
  | .Attack => 2


/-- Rust `Ability` from types.rs. -/
structure Ability where
  power : Nat
  ability_type : AbilityType
  stat : StatType
  stat_value : Nat
  duration : Nat
  heal_amount : Nat
  applies_burn : Bool
deriving DecidableEq, Repr


/-- Rust `Champion` from types.rs; `abilities: [Ability; 2]` as a pair. -/
structure Champion where
  id : Nat
  hp : Nat
  attack : Nat
  defense : Nat
  speed : Nat
  element : Element
  abilities : Ability × Ability
deriving DecidableEq, Repr


/-- Rust `champ.abilities[i]`; out-of-range indexing aborts. -/
def Champion.ability (c : Champion) (i : Nat) : Option Ability :=
  match i with
  | 0 => some c.abilities.1
  | 1 => some c.abilities.2
  | _ => none


/-- Rust `BuffSlot` from types.rs. -/
structure BuffSlot where
  stat : StatType
  value : Nat
  turns_remaining : Nat
  is_debuff : Bool
  active : Bool
deriving DecidableEq, Repr


/-- Rust `BuffSlot::EMPTY`. -/
def BuffSlot.EMPTY : BuffSlot :=
  { stat := .Defense, value := 0, turns_remaining := 0, is_debuff := false, active := false }


/-- The fixed `[BuffSlot; MAX_BUFFS]` array (`MAX_BUFFS = 8`). -/
structure Buffs where
  b0 : BuffSlot
  b1 : BuffSlot
  b2 : BuffSlot
  b3 : BuffSlot
  b4 : BuffSlot
  b5 : BuffSlot
  b6 : BuffSlot
  b7 : BuffSlot
deriving DecidableEq, Repr


/-- The slots in index order, for the `for i in 0..MAX_BUFFS` loops. -/
def Buffs.toList (bs : Buffs) : List BuffSlot :=
  [bs.b0, bs.b1, bs.b2, bs.b3, bs.b4, bs.b5, bs.b6, bs.b7]


/-- All-`EMPTY` buff array. -/
def Buffs.empty : Buffs :=
  ⟨.EMPTY, .EMPTY, .EMPTY, .EMPTY, .EMPTY, .EMPTY, .EMPTY, .EMPTY⟩


/-- Rust `ChampionState` from types.rs. -/
structure ChampionState where
  id : Nat
  current_hp : Nat
  max_hp : Nat
  buffs : Buffs
  buff_count : Nat
  burn_turns : Nat
  is_ko : Bool
  total_damage_dealt : Nat
deriving DecidableEq, Repr


/-- Rust `TurnAction` from types.rs. -/
structure TurnAction where
  champion_id : Nat
  ability_index : Nat
deriving DecidableEq, Repr


/-- Rust `TurnEvent` from types.rs. -/
inductive TurnEvent where
  | Attack (attacker_id defender_id damage mult_x100 : Nat)
  | Heal (champion_id amount new_hp : Nat)
  | Buff (champion_id : Nat) (stat : StatType) (value duration : Nat)
  | Debuff (target_id : Nat) (stat : StatType) (value duration : Nat)
  | BurnTick (champion_id damage : Nat)
  | Ko (champion_id : Nat)
  | BurnApplied (target_id duration : Nat)
deriving DecidableEq, Repr


/-- Rust `TurnResult` from types.rs; the event array plus count becomes a list in
emission order. -/
structure TurnResult where
  state_a : ChampionState
  state_b : ChampionState
  events : List TurnEvent
deriving DecidableEq, Repr


-- ---------------------------------------------------------------------------
-- elements.rs
-- ---------------------------------------------------------------------------

/-- The advantage cycle Fire → Earth → Wind → Water → Fire. -/
def beats : Element → Element
  | .Fire => .Earth
  | .Earth => .Wind
  | .Wind => .Water
  | .Water => .Fire


/-- Rust `get_type_multiplier` from elements.rs. -/
def get_type_multiplier (attacker defender : Element) : Nat :=
  if attacker = defender then 100
  else if beats attacker = defender then 150
  else if beats defender = attacker then 67
  else 100


-- ---------------------------------------------------------------------------
-- damage.rs
-- ---------------------------------------------------------------------------

/-- One iteration of the `sum_buffs` accumulation loop. -/
def sum_buffs_step (stat : StatType) (total : Nat) (b : BuffSlot) : Option Nat :=
  if b.active && b.stat == stat && !b.is_debuff then add32 total b.value else some total


/-- Rust `sum_buffs` from damage.rs. -/
def sum_buffs (state : ChampionState) (stat : StatType) : Option Nat :=
  state.buffs.toList.foldlM (sum_buffs_step stat) 0


/-- One iteration of the `sum_debuffs` accumulation loop. -/
def sum_debuffs_step (stat : StatType) (total : Nat) (b : BuffSlot) : Option Nat :=
  if b.active && b.stat == stat && b.is_debuff then add32 total b.value else some total


/-- Rust `sum_debuffs` from damage.rs. -/
def sum_debuffs (state : ChampionState) (stat : StatType) : Option Nat :=
  state.buffs.toList.foldlM (sum_debuffs_step stat) 0


/-- Rust `calculate_damage` from damage.rs; returns `(damage, type_multiplier_x100)`. -/
def calculate_damage (attacker defender : Champion) (defender_state : ChampionState)
    (ability : Ability) (attacker_state : ChampionState) : Option (Nat × Nat) := do
  let attack_debuffs ← sum_debuffs attacker_state .Attack
  let effective_atk := attacker.attack - attack_debuffs
  let mult_x100 := get_type_multiplier attacker.element defender.element
  let defense_buffs ← sum_buffs defender_state .Defense
  let effective_def ← add32 defender.defense defense_buffs
  let m1 ← mul64 ability.power (20 + effective_atk)
  let m2 ← mul64 m1 mult_x100
  let raw := m2 / 2000
  let raw_u32 := raw % U32
  let damage := if raw_u32 > effective_def then raw_u32 - effective_def else 1
  some (damage, mult_x100)


/-- Rust `calculate_burn_damage` from damage.rs: `(max_hp / 10).max(1)`. -/
def calculate_burn_damage (state : ChampionState) : Nat :=
  max (state.max_hp / 10) 1


-- ---------------------------------------------------------------------------
-- champions.rs — the static catalog (10 entries)
-- ---------------------------------------------------------------------------

/-- Abbreviation for a plain damage ability of the given power. -/
def dmgAbility (p : Nat) : Ability :=
  { power := p, ability_type := .Damage, stat := .Defense, stat_value := 0,
    duration := 0, heal_amount := 0, applies_burn := false }


/-- Abbreviation for a buff ability. -/
def buffAbility (st : StatType) (v d : Nat) : Ability :=
  { power := 0, ability_type := .Buff, stat := st, stat_value := v,
    duration := d, heal_amount := 0, applies_burn := false }


/-- Abbreviation for a heal ability. -/
def healAbility (h : Nat) : Ability :=
  { power := 0, ability_type := .Heal, stat := .Defense, stat_value := 0,
    duration := 0, heal_amount := h, applies_burn := false }


/-- Rust `CHAMPIONS` from champions.rs. -/
def CHAMPIONS : List Champion :=
  [ -- 0: Inferno — Fire
    { id := 0, hp := 80, attack := 20, defense := 5, speed := 16, element := .Fire,
      abilities := (dmgAbility 35,
        { power := 15, ability_type := .DamageDot, stat := .Defense, stat_value := 0,
          duration := 3, heal_amount := 0, applies_burn := true }) },
    -- 1: Boulder — Earth
    { id := 1, hp := 140, attack := 14, defense := 16, speed := 5, element := .Earth,
      abilities := (dmgAbility 28, buffAbility .Defense 6 2) },
    -- 2: Ember — Fire
    { id := 2, hp := 90, attack := 16, defense := 8, speed := 14, element := .Fire,
      abilities := (dmgAbility 25, buffAbility .Defense 5 2) },
    -- 3: Torrent — Water
    { id := 3, hp := 110, attack := 12, defense := 12, speed := 10, element := .Water,
      abilities := (dmgAbility 22, healAbility 25) },
    -- 4: Gale — Wind
    { id := 4, hp := 75, attack := 15, defense := 6, speed := 18, element := .Wind,
      abilities := (dmgAbility 24, buffAbility .Speed 5 2) },
    -- 5: Tide — Water
    { id := 5, hp := 100, attack := 11, defense := 14, speed := 9, element := .Water,
      abilities := (dmgAbility 20,
        { power := 0, ability_type := .Debuff, stat := .Attack, stat_value := 4,
          duration := 2, heal_amount := 0, applies_burn := false }) },
    -- 6: Quake — Earth
    { id := 6, hp := 130, attack := 13, defense := 15, speed := 7, element := .Earth,
      abilities := (dmgAbility 26, buffAbility .Defense 8 1) },
    -- 7: Storm — Wind
    { id := 7, hp := 85, attack := 17, defense := 7, speed := 15, element := .Wind,
      abilities := (dmgAbility 30, buffAbility .Speed 6 2) },
    -- 8: Phoenix — Fire
    { id := 8, hp := 65, attack := 22, defense := 4, speed := 17, element := .Fire,
      abilities := (dmgAbility 38, healAbility 30) },
    -- 9: Kraken — Water
    { id := 9, hp := 120, attack := 10, defense := 16, speed := 6, element := .Water,
      abilities := (dmgAbility 24, buffAbility .Defense 7 2) } ]


/-- Rust `get_champion` from champions.rs; out-of-range indexing aborts. -/
def get_champion (id : Nat) : Option Champion :=
  CHAMPIONS.get? id


-- ---------------------------------------------------------------------------
-- combat.rs
-- ---------------------------------------------------------------------------

/-- Rust `MAX_EVENTS` from types.rs. -/
def MAX_EVENTS : Nat := 16


/-- Rust `push_event` from combat.rs (release behaviour of the guarded append). -/
def push_event (events : List TurnEvent) (e : TurnEvent) : List TurnEvent :=
  if events.length < MAX_EVENTS then events ++ [e] else events


/-- Rust `insert_buff` from combat.rs: first-inactive-slot insertion;
exhaustion aborts (`panic!`). -/
def insert_buff (state : ChampionState) (slot : BuffSlot) : Option ChampionState :=
  let s := { slot with active := true }
  if !state.buffs.b0.active then do
    let c ← add8 state.buff_count 1
    some { state with buffs := { state.buffs with b0 := s }, buff_count := c }
  else if !state.buffs.b1.active then do
    let c ← add8 state.buff_count 1
    some { state with buffs := { state.buffs with b1 := s }, buff_count := c }
  else if !state.buffs.b2.active then do
    let c ← add8 state.buff_count 1
    some { state with buffs := { state.buffs with b2 := s }, buff_count := c }
  else if !state.buffs.b3.active then do
    let c ← add8 state.buff_count 1
    some { state with buffs := { state.buffs with b3 := s }, buff_count := c }
  else if !state.buffs.b4.active then do
    let c ← add8 state.buff_count 1
    some { state with buffs := { state.buffs with b4 := s }, buff_count := c }
  else if !state.buffs.b5.active then do
    let c ← add8 state.buff_count 1
    some { state with buffs := { state.buffs with b5 := s }, buff_count := c }
  else if !state.buffs.b6.active then do
    let c ← add8 state.buff_count 1
    some { state with buffs := { state.buffs with b6 := s }, buff_count := c }
  else if !state.buffs.b7.active then do
    let c ← add8 state.buff_count 1
    some { state with buffs := { state.buffs with b7 := s }, buff_count := c }
  else none


/-- One slot of the `tick_buffs` loop: decrement an active slot
(`-= 1` aborts on underflow), deactivating it at zero and decrementing
`buff_count` with `saturating_sub`. -/
def tick_one (b : BuffSlot) (count : Nat) : Option (BuffSlot × Nat) :=
  if b.active then do
    let t ← subChk b.turns_remaining 1
    if t = 0 then some ({ b with turns_remaining := t, active := false }, count - 1)
    else some ({ b with turns_remaining := t }, count)
  else some (b, count)


/-- Rust `tick_buffs` from combat.rs. -/
def tick_buffs (state : ChampionState) : Option ChampionState := do
  let (c0, n0) ← tick_one state.buffs.b0 state.buff_count
  let (c1, n1) ← tick_one state.buffs.b1 n0
  let (c2, n2) ← tick_one state.buffs.b2 n1
  let (c3, n3) ← tick_one state.buffs.b3 n2
  let (c4, n4) ← tick_one state.buffs.b4 n3
  let (c5, n5) ← tick_one state.buffs.b5 n4
  let (c6, n6) ← tick_one state.buffs.b6 n5
  let (c7, n7) ← tick_one state.buffs.b7 n6
  some { state with buffs := ⟨c0, c1, c2, c3, c4, c5, c6, c7⟩, buff_count := n7 }


/-- Rust `execute_action` from combat.rs. Returns the updated
`(actor_state, target_state, events)`. -/
def execute_action (actor_champ : Champion) (actor_state : ChampionState)
    (action : TurnAction) (target_champ : Champion) (target_state : ChampionState)
    (events : List TurnEvent) :
    Option (ChampionState × ChampionState × List TurnEvent) := do
  let ability ← actor_champ.ability action.ability_index
  match ability.ability_type with
  | .Damage => do
      let (damage, mult_x100) ←
        calculate_damage actor_champ target_champ target_state ability actor_state
      let hp1 := target_state.current_hp - damage
      let tdd ← add32 actor_state.total_damage_dealt damage
      let actor1 := { actor_state with total_damage_dealt := tdd }
      let ev1 := push_event events (.Attack actor_champ.id target_champ.id damage mult_x100)
      if hp1 = 0 then
        some (actor1, { target_state with current_hp := hp1, is_ko := true },
          push_event ev1 (.Ko target_champ.id))
      else
        some (actor1, { target_state with current_hp := hp1 }, ev1)
  | .DamageDot => do
      let (damage, mult_x100) ←
        calculate_damage actor_champ target_champ target_state ability actor_state
      let hp1 := target_state.current_hp - damage
      let tdd ← add32 actor_state.total_damage_dealt damage
      let actor1 := { actor_state with total_damage_dealt := tdd }
      let ev1 := push_event events (.Attack actor_champ.id target_champ.id damage mult_x100)
      let (target1, ev2) :=
        if hp1 = 0 then
          ({ target_state with current_hp := hp1, is_ko := true },
            push_event ev1 (.Ko target_champ.id))
        else ({ target_state with current_hp := hp1 }, ev1)
      if ability.applies_burn && ability.duration > 0 && !target1.is_ko then
        some (actor1, { target1 with burn_turns := ability.duration },
          push_event ev2 (.BurnApplied target_champ.id ability.duration))
      else
        some (actor1, target1, ev2)
  | .Heal => do
      let old_hp := actor_state.current_hp
      let s ← add32 old_hp ability.heal_amount
      let new_hp := if s > actor_state.max_hp then actor_state.max_hp else s
      let amount ← subChk new_hp old_hp
      some ({ actor_state with current_hp := new_hp }, target_state,
        push_event events (.Heal actor_champ.id amount new_hp))
  | .Buff =>
      if ability.stat_value > 0 && ability.duration > 0 then do
        let slot : BuffSlot :=
          { stat := ability.stat, value := ability.stat_value,
            turns_remaining := ability.duration, is_debuff := false, active := true }
        let actor1 ← insert_buff actor_state slot
        some (actor1, target_state,
          push_event events (.Buff actor_champ.id ability.stat ability.stat_value ability.duration))
      else some (actor_state, target_state, events)
  | .Debuff =>
      if ability.stat_value > 0 && ability.duration > 0 then do
        let slot : BuffSlot :=
          { stat := ability.stat, value := ability.stat_value,
            turns_remaining := ability.duration, is_debuff := true, active := true }
        let target1 ← insert_buff target_state slot
        some (actor_state, target1,
          push_event events (.Debuff target_champ.id ability.stat ability.stat_value ability.duration))
      else some (actor_state, target_state, events)


/-- Rust `process_burn_tick` from combat.rs. -/
def process_burn_tick (state : ChampionState) (events : List TurnEvent) :
    ChampionState × List TurnEvent :=
  if state.burn_turns > 0 && !state.is_ko then
    let burn_damage := calculate_burn_damage state
    let hp1 := state.current_hp - burn_damage
    let ev1 := push_event events (.BurnTick state.id burn_damage)
    let s1 := { state with current_hp := hp1, burn_turns := state.burn_turns - 1 }
    if hp1 = 0 then ({ s1 with is_ko := true }, push_event ev1 (.Ko state.id))
    else (s1, ev1)
  else (state, events)


/-- The tail of `resolve_turn` after both actions: burn ticks (A then B)
followed by buff duration ticks. -/
def finish_turn (a b : ChampionState) (events : List TurnEvent) : Option TurnResult := do
  let (a1, ev1) := process_burn_tick a events
  let (b1, ev2) := process_burn_tick b ev1
  let a2 ← tick_buffs a1
  let b2 ← tick_buffs b1
  some ⟨a2, b2, ev2⟩


/-- The `a_goes_first` branch of `resolve_turn`: A's action executes,
then B's action executes only if B is not knocked out. -/
def act_phase_a_first (champ_a champ_b : Champion) (state_a state_b : ChampionState)
    (action_a action_b : TurnAction) : Option TurnResult := do
  let (a1, b1, ev1) ← execute_action champ_a state_a action_a champ_b state_b []
  if b1.is_ko then finish_turn a1 b1 ev1
  else do
    let (b2, a2, ev2) ← execute_action champ_b b1 action_b champ_a a1 ev1
    finish_turn a2 b2 ev2


/-- The `!a_goes_first` branch of `resolve_turn`: B's action executes,
then A's action executes only if A is not knocked out. -/
def act_phase_b_first (champ_a champ_b : Champion) (state_a state_b : ChampionState)
    (action_a action_b : TurnAction) : Option TurnResult := do
  let (b1, a1, ev1) ← execute_action champ_b state_b action_b champ_a state_a []
  if a1.is_ko then finish_turn a1 b1 ev1
  else do
    let (a2, b2, ev2) ← execute_action champ_a a1 action_a champ_b b1 ev1
    finish_turn a2 b2 ev2


/-- Rust `resolve_turn` from combat.rs (the two priority branches are the
named functions above). -/
def resolve_turn (state_a state_b : ChampionState) (action_a action_b : TurnAction) :
    Option TurnResult := do
  let champ_a ← get_champion state_a.id
  let champ_b ← get_champion state_b.id
  let sba ← sum_buffs state_a .Speed
  let speed_a ← add32 champ_a.speed sba
  let sbb ← sum_buffs state_b .Speed
  let speed_b ← add32 champ_b.speed sbb
  let a_goes_first := speed_a > speed_b || (speed_a == speed_b && champ_a.id < champ_b.id)
  if a_goes_first then
    act_phase_a_first champ_a champ_b state_a state_b action_a action_b
  else
    act_phase_b_first champ_a champ_b state_a state_b action_a action_b


/-- Rust `init_champion_state` from combat.rs. -/
def init_champion_state (champion_id : Nat) : Option ChampionState := do
  let champ ← get_champion champion_id
  some { id := champion_id, current_hp := champ.hp, max_hp := champ.hp,
         buffs := Buffs.empty, buff_count := 0, burn_turns := 0, is_ko := false,
         total_damage_dealt := 0 }


-- ---------------------------------------------------------------------------
-- pack.rs — the combat state codec
-- ---------------------------------------------------------------------------

/-- Goldilocks prime `p = 2^64 - 2^32 + 1` from pack.rs. -/
def GOLDILOCKS_P : Nat := 18446744069414584321


/-- A `[u64; 4]` word (one Miden Word). -/
structure Word4 where
  w0 : Nat
  w1 : Nat
  w2 : Nat
  w3 : Nat
deriving DecidableEq, Repr


/-- Rust `pack_single_buff` from pack.rs.
Layout: `stat(2) | is_debuff(1) | value(6) | turns(4) | active(1) | reserved(2)`.
The source builds this with shifts and ORs of masked fields
(`(buff.value as u16) & 0x3F`, `(buff.turns_remaining as u16) & 0x0F`);
since every masked field fits its shifted slot the ORs are additions. -/
def pack_single_buff (buff : BuffSlot) : Nat :=
  if !buff.active then 0
  else
    let stat_bits := buff.stat.toNat % 4
    let debuff_bit := if buff.is_debuff then 1 else 0
    let value_bits := buff.value % U16 % 64
    let turns_bits := buff.turns_remaining % U16 % 16
    stat_bits * 16384 + debuff_bit * 8192 + value_bits * 128 + turns_bits * 8 + 4


/-- Rust `pack_champion_state` from pack.rs (without the optional `track-damage`
telemetry feature). The three `assert!(felt < GOLDILOCKS_P)` checks become
`none`. `felt2` ORs the four 16-bit buff fields at disjoint positions
(`buff[0]` in the most significant bits), hence the additions. -/
def pack_champion_state (state : ChampionState) : Option Word4 :=
  let felt0 := state.current_hp * U32 + state.max_hp
  let felt1 := (if state.is_ko then 1 else 0) * U32
  if felt0 < GOLDILOCKS_P then
    if felt1 < GOLDILOCKS_P then
      let felt2 := pack_single_buff state.buffs.b0 * 281474976710656 +
        pack_single_buff state.buffs.b1 * U32 +
        pack_single_buff state.buffs.b2 * U16 +
        pack_single_buff state.buffs.b3
      if felt2 < GOLDILOCKS_P then some ⟨felt0, felt1, felt2, 0⟩ else none
    else none
  else none


/-- Rust `unpack_single_buff` from pack.rs; the `panic!("invalid stat type")`
on stat bits `0b11` becomes `none`. -/
def unpack_single_buff (bits : Nat) : Option BuffSlot :=
  if (bits / 4) % 2 ≠ 1 then some BuffSlot.EMPTY
  else do
    let stat ←
      match bits / 16384 % 4 with
      | 0 => some StatType.Defense
      | 1 => some StatType.Speed
      | 2 => some StatType.Attack
      | _ => none
    some { stat := stat, is_debuff := (bits / 8192) % 2 == 1, value := bits / 128 % 64,
           turns_remaining := bits / 8 % 16, active := true }


/-- Rust `unpack_champion_state` from pack.rs. `champion_id` comes from the caller;
`buff_count` is recomputed by counting active slots. The packed layout carries
no burn or damage telemetry, so `burn_turns` and `total_damage_dealt` are
restored as zero (the source's struct literal carries no value for them). -/
def unpack_champion_state (word : Word4) (champion_id : Nat) : Option ChampionState := do
  let current_hp := word.w0 / U32 % U32
  let max_hp := word.w0 % U32
  let is_ko := word.w1 / U32 % 2 == 1
  let s0 ← unpack_single_buff (word.w2 / 281474976710656 % U16)
  let s1 ← unpack_single_buff (word.w2 / U32 % U16)
  let s2 ← unpack_single_buff (word.w2 / U16 % U16)
  let s3 ← unpack_single_buff (word.w2 % U16)
  let buffs : Buffs := ⟨s0, s1, s2, s3, .EMPTY, .EMPTY, .EMPTY, .EMPTY⟩
  let buff_count := (buffs.toList.filter (·.active)).length
  some { id := champion_id, current_hp := current_hp, max_hp := max_hp, buffs := buffs,
         buff_count := buff_count, burn_turns := 0, is_ko := is_ko,
         total_damage_dealt := 0 }


-- ---------------------------------------------------------------------------
-- contracts/arena-account/src/lib.rs — the match state machine
-- ---------------------------------------------------------------------------

/-- Rust `STAKE_AMOUNT` from arena-account. -/
def STAKE_AMOUNT : Nat := 10000000


/-- Rust `TIMEOUT_BLOCKS` from arena-account. -/
def TIMEOUT_BLOCKS : Nat := 900


/-- The arena account's 23 storage slots. Felt-valued slots are `Nat`
(a field element's numeric value); word-valued slots are `Word4`. -/
structure ArenaStorage where
  game_state : Nat
  player_a : Word4
  player_b : Word4
  team_a : Word4
  team_b : Word4
  round : Nat
  move_a_commit : Word4
  move_b_commit : Word4
  move_a_reveal : Word4
  move_b_reveal : Word4
  champ_a_0 : Word4
  champ_a_1 : Word4
  champ_a_2 : Word4
  champ_b_0 : Word4
  champ_b_1 : Word4
  champ_b_2 : Word4
  timeout_height : Nat
  winner : Nat
  stake_a : Nat
  stake_b : Nat
  teams_submitted : Nat
  faucet_id : Word4
  p2id_script_hash : Word4
deriving DecidableEq, Repr


/-- Rust `word_is_empty` from arena-account. -/
def word_is_empty (w : Word4) : Bool :=
  w.w0 == 0 && w.w1 == 0 && w.w2 == 0 && w.w3 == 0


/-- Externally observable outputs of an arena procedure, in program order:
a `send_payout` P2ID note (target prefix/suffix, amount, payout id used as
the note serial number), a write of the `winner` slot, or a write of the
`game_state` slot. -/
inductive ArenaEff where
  | payout (pfx sfx amount payout_id : Nat)
  | setWinner (v : Nat)
  | setPhase (v : Nat)
deriving DecidableEq, Repr


/-- Rust `decode_move` from arena-account; the range `assert!` becomes `none`. -/
def decode_move (encoded : Nat) : Option TurnAction :=
  if 1 ≤ encoded ∧ encoded ≤ 16 then
    some { champion_id := (encoded - 1) / 2, ability_index := (encoded - 1) % 2 }
  else none


/-- Rust `ArenaAccount::read_champ_state`: slot dispatch plus unpack. -/
def read_champ_state (m : ArenaStorage) (slot_index champion_id : Nat) :
    Option ChampionState := do
  let w ←
    match slot_index with
    | 10 => some m.champ_a_0
    | 11 => some m.champ_a_1
    | 12 => some m.champ_a_2
    | 13 => some m.champ_b_0
    | 14 => some m.champ_b_1
    | 15 => some m.champ_b_2
    | _ => none
  unpack_champion_state w champion_id


/-- Rust `ArenaAccount::write_champ_state`: pack plus slot dispatch. -/
def write_champ_state (m : ArenaStorage) (slot_index : Nat) (state : ChampionState) :
    Option ArenaStorage := do
  let w ← pack_champion_state state
  match slot_index with
  | 10 => some { m with champ_a_0 := w }
  | 11 => some { m with champ_a_1 := w }
  | 12 => some { m with champ_a_2 := w }
  | 13 => some { m with champ_b_0 := w }
  | 14 => some { m with champ_b_1 := w }
  | 15 => some { m with champ_b_2 := w }
  | _ => none


/-- Rust `ArenaAccount::find_team_slot`: first matching team entry
(`team[i].as_u64() as u8 == champion_id`); no match aborts. -/
def find_team_slot (m : ArenaStorage) (is_player_a : Bool) (champion_id : Nat) :
    Option Nat :=
  let team := if is_player_a then m.team_a else m.team_b
  let base := if is_player_a then 10 else 13
  if team.w0 % U8 = champion_id then some base
  else if team.w1 % U8 = champion_id then some (base + 1)
  else if team.w2 % U8 = champion_id then some (base + 2)
  else none


/-- Rust `inline_execute_action` from arena-account.

The source matches on a 3-way ability taxonomy (`Damage`/`Heal`/`StatMod`
with an `is_debuff` ability field) while importing the combat engine's 5-way
`AbilityType`; spec §9 records these diverging variants. The model maps the
5-way catalog onto the arms as the source's own `Damage` arm demands
(it carries the `applies_burn` logic, i.e. it covers both plain and
damage-over-time attacks) and sends `Buff`/`Debuff` to the `StatMod` arm
with `is_debuff` read off the ability type. Unlike the engine's
`execute_action`, no events and no `total_damage_dealt` are produced, and
the `StatMod` insertion is the same first-free-slot scan (`assert!` on
exhaustion becomes `none`). -/
def inline_execute_action (actor_champ : Champion) (actor_state : ChampionState)
    (ability : Ability) (target_champ : Champion) (target_state : ChampionState) :
    Option (ChampionState × ChampionState) := do
  match ability.ability_type with
  | .Damage | .DamageDot => do
      let (dmg, _) ←
        calculate_damage actor_champ target_champ target_state ability actor_state
      let hp1 := target_state.current_hp - dmg
      let target1 :=
        if hp1 = 0 then { target_state with current_hp := hp1, is_ko := true }
        else { target_state with current_hp := hp1 }
      if ability.applies_burn && ability.duration > 0 && !target1.is_ko then
        some (actor_state, { target1 with burn_turns := ability.duration })
      else
        some (actor_state, target1)
  | .Heal => do
      let old_hp := actor_state.current_hp
      let s ← add32 old_hp ability.heal_amount
      let new_hp := if s > actor_state.max_hp then actor_state.max_hp else s
      some ({ actor_state with current_hp := new_hp }, target_state)
  | .Buff =>
      if ability.stat_value > 0 && ability.duration > 0 then do
        let slot : BuffSlot :=
          { stat := ability.stat, value := ability.stat_value,
            turns_remaining := ability.duration, is_debuff := false, active := true }
        let actor1 ← insert_buff actor_state slot
        some (actor1, target_state)
      else some (actor_state, target_state)
  | .Debuff =>
      if ability.stat_value > 0 && ability.duration > 0 then do
        let slot : BuffSlot :=
          { stat := ability.stat, value := ability.stat_value,
            turns_remaining := ability.duration, is_debuff := true, active := true }
        let target1 ← insert_buff target_state slot
        some (actor_state, target1)
      else some (actor_state, target_state)


/-- The inlined burn tick of `resolve_current_turn` step 7 (same arithmetic as
`process_burn_tick`, without events). -/
def inline_burn_tick (state : ChampionState) : ChampionState :=
  if state.burn_turns > 0 && !state.is_ko then
    let bd := calculate_burn_damage state
    let hp1 := state.current_hp - bd
    let s1 := { state with current_hp := hp1, burn_turns := state.burn_turns - 1 }
    if hp1 = 0 then { s1 with is_ko := true } else s1
  else state


/-- Step 6 of `ArenaAccount::resolve_current_turn`: execute both inlined
actions in speed order, skipping the second actor's action when the first
one's knocked it out. Returns the updated `(state_a, state_b)`. -/
def inline_exec_both (champ_a champ_b : Champion) (ability_a ability_b : Ability)
    (state_a state_b : ChampionState) (a_goes_first : Bool) :
    Option (ChampionState × ChampionState) :=
  if a_goes_first then do
    let (a1, b1) ← inline_execute_action champ_a state_a ability_a champ_b state_b
    if b1.is_ko then some (a1, b1)
    else do
      let (b2, a2) ← inline_execute_action champ_b b1 ability_b champ_a a1
      some (a2, b2)
  else do
    let (b1, a1) ← inline_execute_action champ_b state_b ability_b champ_a state_a
    if a1.is_ko then some (a1, b1)
    else do
      let (a2, b2) ← inline_execute_action champ_a a1 ability_a champ_b b1
      some (a2, b2)


/-- Steps 4-8 of `ArenaAccount::resolve_current_turn`, from the loaded
states on: champion/ability lookup, speed priority, both actions, the two
inlined burn ticks, and the two inlined buff-duration loops (the inlined
loop is the same as `tick_buffs`). -/
def resolve_combat_math (action_a action_b : TurnAction)
    (state_a state_b : ChampionState) : Option (ChampionState × ChampionState) := do
  let champ_a ← get_champion action_a.champion_id
  let champ_b ← get_champion action_b.champion_id
  let ability_a ← champ_a.ability action_a.ability_index
  let ability_b ← champ_b.ability action_b.ability_index
  let sba ← sum_buffs state_a .Speed
  let speed_a ← add32 champ_a.speed sba
  let sbb ← sum_buffs state_b .Speed
  let speed_b ← add32 champ_b.speed sbb
  let a_goes_first := speed_a > speed_b || (speed_a == speed_b && champ_a.id < champ_b.id)
  let (sa1, sb1) ← inline_exec_both champ_a champ_b ability_a ability_b state_a state_b a_goes_first
  let sa2 := inline_burn_tick sa1
  let sb2 := inline_burn_tick sb1
  let sa3 ← tick_buffs sa2
  let sb3 ← tick_buffs sb2
  some (sa3, sb3)


/-- Steps 1-9 of `ArenaAccount::resolve_current_turn`: decode the two
reveals, load both champion states, the defense-in-depth alive assertions,
the combat math of steps 4-8, and the write-back of both states. -/
def resolve_combat_core (m : ArenaStorage) : Option ArenaStorage := do
  let action_a ← decode_move (m.move_a_reveal.w0 % U32)
  let action_b ← decode_move (m.move_b_reveal.w0 % U32)
  let slot_a ← find_team_slot m true action_a.champion_id
  let slot_b ← find_team_slot m false action_b.champion_id
  let state_a ← read_champ_state m slot_a action_a.champion_id
  let state_b ← read_champ_state m slot_b action_b.champion_id
  if state_a.is_ko then none
  else if state_b.is_ko then none
  else do
    let (sa3, sb3) ← resolve_combat_math action_a action_b state_a state_b
    let m1 ← write_champ_state m slot_a sa3
    let m2 ← write_champ_state m1 slot_b sb3
    some m2


/-- Step 10 of `ArenaAccount::resolve_current_turn`: reload all six champion
states, check elimination, and either resolve the match (winner write, phase
write, payouts keyed by the round number) or reset for the next round. -/
def post_resolve (m : ArenaStorage) (block_number : Nat) :
    Option (ArenaStorage × List ArenaEff) := do
  let a0 ← read_champ_state m 10 (m.team_a.w0 % U8)
  let a1 ← read_champ_state m 11 (m.team_a.w1 % U8)
  let a2 ← read_champ_state m 12 (m.team_a.w2 % U8)
  let b0 ← read_champ_state m 13 (m.team_b.w0 % U8)
  let b1 ← read_champ_state m 14 (m.team_b.w1 % U8)
  let b2 ← read_champ_state m 15 (m.team_b.w2 % U8)
  let a_elim := a0.is_ko && a1.is_ko && a2.is_ko
  let b_elim := b0.is_ko && b1.is_ko && b2.is_ko
  if a_elim || b_elim then do
    let winner_val : Nat := if a_elim && b_elim then 3 else if b_elim then 1 else 2
    let m1 := { m with winner := winner_val, game_state := 4 }
    let total_stake ← add64 m.stake_a m.stake_b
    let round_id := m.round
    let payouts ←
      if winner_val = 1 then
        some [ArenaEff.payout m.player_a.w0 m.player_a.w1 total_stake round_id]
      else if winner_val = 2 then
        some [ArenaEff.payout m.player_b.w0 m.player_b.w1 total_stake round_id]
      else do
        let rid2 ← add64 round_id 1
        some [ArenaEff.payout m.player_a.w0 m.player_a.w1 m.stake_a round_id,
              ArenaEff.payout m.player_b.w0 m.player_b.w1 m.stake_b rid2]
    some (m1, [ArenaEff.setWinner winner_val, ArenaEff.setPhase 4] ++ payouts)
  else do
    let r1 ← add64 m.round 1
    let th ← add64 block_number TIMEOUT_BLOCKS
    let empty : Word4 := ⟨0, 0, 0, 0⟩
    let m1 := { m with round := r1, move_a_commit := empty, move_b_commit := empty,
                       move_a_reveal := empty, move_b_reveal := empty, timeout_height := th }
    some (m1, [])


/-- Rust `ArenaAccount::resolve_current_turn`. -/
def resolve_current_turn (m : ArenaStorage) (block_number : Nat) :
    Option (ArenaStorage × List ArenaEff) := do
  let m9 ← resolve_combat_core m
  post_resolve m9 block_number


/-- Rust `ArenaAccount::claim_timeout`. The returned effect list is in program
order; note that in every arm the `game_state.write(4)` comes after the
payouts, at the very end of the procedure. -/
def claim_timeout (block_number : Nat) (m : ArenaStorage) (pfx sfx : Nat) :
    Option (ArenaStorage × List ArenaEff) := do
  let state_val := m.game_state
  if ¬(1 ≤ state_val ∧ state_val ≤ 3) then none
  else if ¬(block_number > m.timeout_height) then none
  else
    let is_player_a := pfx == m.player_a.w0 && sfx == m.player_a.w1
    let is_player_b := pfx == m.player_b.w0 && sfx == m.player_b.w1
    let timeout_payout_base := 1000000 + state_val
    if state_val = 1 then
      if !is_player_a then none
      else
        some ({ m with game_state := 4 },
          [ArenaEff.payout m.player_a.w0 m.player_a.w1 m.stake_a timeout_payout_base,
           ArenaEff.setPhase 4])
    else if state_val = 2 then
      if !(is_player_a || is_player_b) then none
      else
        some ({ m with game_state := 4 },
          [ArenaEff.payout m.player_a.w0 m.player_a.w1 m.stake_a timeout_payout_base,
           ArenaEff.payout m.player_b.w0 m.player_b.w1 m.stake_b (timeout_payout_base + 1),
           ArenaEff.setPhase 4])
    else
      if !(is_player_a || is_player_b) then none
      else
        let a_progress : Nat :=
          if !word_is_empty m.move_a_reveal then 2
          else if !word_is_empty m.move_a_commit then 1
          else 0
        let b_progress : Nat :=
          if !word_is_empty m.move_b_reveal then 2
          else if !word_is_empty m.move_b_commit then 1
          else 0
        do
          let total_stake ← add64 m.stake_a m.stake_b
          if a_progress > b_progress then
            some ({ m with winner := 1, game_state := 4 },
              [ArenaEff.setWinner 1,
               ArenaEff.payout m.player_a.w0 m.player_a.w1 total_stake timeout_payout_base,
               ArenaEff.setPhase 4])
          else if b_progress > a_progress then
            some ({ m with winner := 2, game_state := 4 },
              [ArenaEff.setWinner 2,
               ArenaEff.payout m.player_b.w0 m.player_b.w1 total_stake timeout_payout_base,
               ArenaEff.setPhase 4])
          else
            some ({ m with winner := 3, game_state := 4 },
              [ArenaEff.setWinner 3,
               ArenaEff.payout m.player_a.w0 m.player_a.w1 m.stake_a timeout_payout_base,
               ArenaEff.payout m.player_b.w0 m.player_b.w1 m.stake_b (timeout_payout_base + 1),
               ArenaEff.setPhase 4])


-- ---------------------------------------------------------------------------
-- Codec lemmas: what one pack/unpack cycle does to a champion state
-- ---------------------------------------------------------------------------

/-- Normal form of one buff slot after a pack/unpack cycle: an active slot
keeps its stat and debuff flag and has value/turns reduced to the packed
bit widths; an inactive slot comes back as `EMPTY`. -/
def buff_norm (b : BuffSlot) : BuffSlot :=
  if b.active then
    { stat := b.stat, value := b.value % 64, turns_remaining := b.turns_remaining % 16,
      is_debuff := b.is_debuff, active := true }
  else BuffSlot.EMPTY


/-- Normal form of a champion state after one pack/unpack cycle under the
given champion id. -/
def unpack_norm (s : ChampionState) (id : Nat) : ChampionState :=
  let nb : Buffs := ⟨buff_norm s.buffs.b0, buff_norm s.buffs.b1, buff_norm s.buffs.b2,
    buff_norm s.buffs.b3, .EMPTY, .EMPTY, .EMPTY, .EMPTY⟩
  { id := id, current_hp := s.current_hp, max_hp := s.max_hp, buffs := nb,
    buff_count := (nb.toList.filter (·.active)).length, burn_turns := 0,
    is_ko := s.is_ko, total_damage_dealt := 0 }


-- ---------------------------------------------------------------------------
-- C10 — the packed state carries no burn information
-- ---------------------------------------------------------------------------

/-- Sample state for C10: a champion carrying five pending burn turns. -/
def c10_state : ChampionState :=
  { id := 0, current_hp := 50, max_hp := 80, buffs := Buffs.empty,
    buff_count := 0, burn_turns := 5, is_ko := false, total_damage_dealt := 0 }


-- ---------------------------------------------------------------------------
-- C5 — when packing fails, and what it silently truncates
-- ---------------------------------------------------------------------------

/-- Sample state for C5: an active buff slot whose value 64 exceeds the
6-bit field. -/
def c5_state : ChampionState :=
  { id := 0, current_hp := 10, max_hp := 10,
    buffs := ⟨⟨.Attack, 64, 1, true, true⟩, .EMPTY, .EMPTY, .EMPTY,
      .EMPTY, .EMPTY, .EMPTY, .EMPTY⟩,
    buff_count := 1, burn_turns := 0, is_ko := false, total_damage_dealt := 0 }


-- ---------------------------------------------------------------------------
-- C4 — the pack/unpack round trip
-- ---------------------------------------------------------------------------

/-- The claim's validity condition on a state: every active buff slot among
the first 4 has `value ≤ 63` and `turns_remaining ≤ 15`. -/
def claim_valid_first4 (s : ChampionState) : Prop :=
  (s.buffs.b0.active = true → s.buffs.b0.value ≤ 63 ∧ s.buffs.b0.turns_remaining ≤ 15) ∧
  (s.buffs.b1.active = true → s.buffs.b1.value ≤ 63 ∧ s.buffs.b1.turns_remaining ≤ 15) ∧
  (s.buffs.b2.active = true → s.buffs.b2.value ≤ 63 ∧ s.buffs.b2.turns_remaining ≤ 15) ∧
  (s.buffs.b3.active = true → s.buffs.b3.value ≤ 63 ∧ s.buffs.b3.turns_remaining ≤ 15)


instance (s : ChampionState) : Decidable (claim_valid_first4 s) := by
  unfold claim_valid_first4
  infer_instance


/-- Sample state for the C4 counterexample: slot 0 is inactive but still
carries a leftover `value = 5` — exactly the shape `tick_buffs` leaves
behind when a buff expires (it clears `active` but not `value`). -/
def c4_state : ChampionState :=
  { id := 3, current_hp := 10, max_hp := 10,
    buffs := ⟨⟨.Defense, 5, 0, false, false⟩, .EMPTY, .EMPTY, .EMPTY,
      .EMPTY, .EMPTY, .EMPTY, .EMPTY⟩,
    buff_count := 0, burn_turns := 0, is_ko := false, total_damage_dealt := 0 }


/-- Sample state for the C4 witness: three active in-range buff slots in
slots 0, 1 and 3. -/
def c4w_state : ChampionState :=
  { id := 7, current_hp := 45, max_hp := 85,
    buffs := ⟨⟨.Defense, 6, 2, false, true⟩, ⟨.Attack, 4, 1, true, true⟩, .EMPTY,
      ⟨.Speed, 5, 3, false, true⟩, .EMPTY, .EMPTY, .EMPTY, .EMPTY⟩,
    buff_count := 3, burn_turns := 0, is_ko := false, total_damage_dealt := 0 }


-- ---------------------------------------------------------------------------
-- C2 — the damage formula
-- ---------------------------------------------------------------------------

/-- Specification-side sum (§4.2): total `value` of the active non-debuff
slots matching the stat, as unbounded arithmetic. -/
def spec_buff_sum (l : List BuffSlot) (stat : StatType) : Nat :=
  ((l.filter fun b => b.active && b.stat == stat && !b.is_debuff).map
    fun b => b.value).sum


/-- Specification-side sum (§4.2): total `value` of the active debuff
slots matching the stat, as unbounded arithmetic. -/
def spec_debuff_sum (l : List BuffSlot) (stat : StatType) : Nat :=
  ((l.filter fun b => b.active && b.stat == stat && b.is_debuff).map
    fun b => b.value).sum


/-- Specification-side damage formula (§4.2, the claim's wording), in
unbounded arithmetic: `effective_attack = attack -. debuffs`,
`effective_defense = defense + buffs`,
`raw = power * (20 + effective_attack) * mult / 2000`,
`damage = raw - effective_defense` if positive difference else 1. -/
def spec_damage (attacker defender : Champion) (defender_state : ChampionState)
    (ability : Ability) (attacker_state : ChampionState) : Nat × Nat :=
  let effective_attack :=
    attacker.attack - spec_debuff_sum attacker_state.buffs.toList .Attack
  let m := get_type_multiplier attacker.element defender.element
  let effective_defense :=
    defender.defense + spec_buff_sum defender_state.buffs.toList .Defense
  let raw := ability.power * (20 + effective_attack) * m / 2000
  (if raw > effective_defense then raw - effective_defense else 1, m)


/-- The minimum-damage catalog exhaustion mirrored from the repository's own
test `all_matchups_produce_at_least_1_damage`: every
(attacker, defender, damage-or-dot ability) triple over the full catalog,
with freshly initialised states, deals at least 1 damage. -/
def catalog_min_damage_check : Bool :=
  CHAMPIONS.all fun ca =>
    CHAMPIONS.all fun cb =>
      [ca.abilities.1, ca.abilities.2].all fun ab =>
        (decide (ab.ability_type ≠ AbilityType.Damage ∧
          ab.ability_type ≠ AbilityType.DamageDot)) ||
        (match (do
            let sa ← init_champion_state ca.id
            let sb ← init_champion_state cb.id
            calculate_damage ca cb sb ab sa : Option (Nat × Nat)) with
          | some (dmg, _) => decide (1 ≤ dmg)
          | none => false)


/-- Concrete all-zero-buff state used in the C2 counterexample. -/
def c2_state : ChampionState :=
  { id := 0, current_hp := 1, max_hp := 1, buffs := Buffs.empty,
    buff_count := 0, burn_turns := 0, is_ko := false, total_damage_dealt := 0 }


/-- Attacker for the C2 counterexample. -/
def c2_attacker : Champion :=
  { id := 0, hp := 1, attack := 1980, defense := 0, speed := 0, element := .Fire,
    abilities := (dmgAbility 67108864, dmgAbility 67108864) }


/-- Defender for the C2 counterexample. -/
def c2_defender : Champion :=
  { id := 1, hp := 1, attack := 0, defense := 0, speed := 0, element := .Fire,
    abilities := (dmgAbility 1, dmgAbility 1) }


/-- Catalog entry 4 (Gale) as a literal, for witnesses. -/
def gale_champ : Champion :=
  { id := 4, hp := 75, attack := 15, defense := 6, speed := 18, element := .Wind,
    abilities := (dmgAbility 24, buffAbility .Speed 5 2) }


/-- Catalog entry 1 (Boulder) as a literal, for witnesses. -/
def boulder_champ : Champion :=
  { id := 1, hp := 140, attack := 14, defense := 16, speed := 5, element := .Earth,
    abilities := (dmgAbility 28, buffAbility .Defense 6 2) }


/-- Fresh combat state of Gale. -/
def gale_state : ChampionState :=
  { id := 4, current_hp := 75, max_hp := 75, buffs := Buffs.empty,
    buff_count := 0, burn_turns := 0, is_ko := false, total_damage_dealt := 0 }


/-- Fresh combat state of Boulder. -/
def boulder_state : ChampionState :=
  { id := 1, current_hp := 140, max_hp := 140, buffs := Buffs.empty,
    buff_count := 0, burn_turns := 0, is_ko := false, total_damage_dealt := 0 }


/-- Catalog entry 0 (Inferno) as a literal, for the C9 witness. -/
def inferno_champ : Champion :=
  { id := 0, hp := 80, attack := 20, defense := 5, speed := 16, element := .Fire,
    abilities := (dmgAbility 35,
      { power := 15, ability_type := .DamageDot, stat := .Defense, stat_value := 0,
        duration := 3, heal_amount := 0, applies_burn := true }) }


/-- Inferno's state at 1 hit point, for the C9 tie break. -/
def c9_state : ChampionState :=
  { id := 0, current_hp := 1, max_hp := 80, buffs := Buffs.empty,
    buff_count := 0, burn_turns := 0, is_ko := false, total_damage_dealt := 0 }


-- ---------------------------------------------------------------------------
-- C6 — where the "both combatants alive" assertion lives
-- ---------------------------------------------------------------------------

/-- A fresh Inferno state, for the C6 counterexample. -/
def inferno_state : ChampionState :=
  { id := 0, current_hp := 80, max_hp := 80, buffs := Buffs.empty,
    buff_count := 0, burn_turns := 0, is_ko := false, total_damage_dealt := 0 }


/-- A knocked-out Boulder state, for the C6 counterexample. -/
def boulder_ko_state : ChampionState :=
  { id := 1, current_hp := 0, max_hp := 140, buffs := Buffs.empty,
    buff_count := 0, burn_turns := 0, is_ko := true, total_damage_dealt := 0 }


/-- Arena storage for the C6 witness: a combat-phase match where player A's
revealed champion (Inferno in slot 10) is already knocked out. -/
def c6_m : ArenaStorage :=
  { game_state := 3, player_a := ⟨11, 12, 0, 0⟩, player_b := ⟨21, 22, 0, 0⟩,
    team_a := ⟨0, 1, 2, 0⟩, team_b := ⟨3, 4, 5, 0⟩, round := 0,
    move_a_commit := ⟨9, 9, 9, 9⟩, move_b_commit := ⟨9, 9, 9, 9⟩,
    move_a_reveal := ⟨1, 5, 6, 0⟩, move_b_reveal := ⟨7, 5, 6, 0⟩,
    champ_a_0 := ⟨80, 4294967296, 0, 0⟩, champ_a_1 := ⟨601295421580, 0, 0, 0⟩,
    champ_a_2 := ⟨386547056730, 0, 0, 0⟩, champ_b_0 := ⟨472446402670, 0, 0, 0⟩,
    champ_b_1 := ⟨322122547275, 0, 0, 0⟩, champ_b_2 := ⟨429496729700, 0, 0, 0⟩,
    timeout_height := 100, winner := 0, stake_a := 10000000, stake_b := 10000000,
    teams_submitted := 3, faucet_id := ⟨0, 0, 0, 0⟩, p2id_script_hash := ⟨0, 0, 0, 0⟩ }


-- ---------------------------------------------------------------------------
-- C7 — claim_timeout: payout/phase-write order and duplicate invocation
-- ---------------------------------------------------------------------------

/-- The claim's ordering property on an effect trace: scanning program
order, the write of the Resolved phase appears before the first payout. -/
def resolved_first : List ArenaEff → Bool
  | [] => true
  | .setPhase 4 :: _ => true
  | .payout _ _ _ _ :: _ => false
  | _ :: rest => resolved_first rest


/-- Arena storage for C7/C8: a timed-out match in the BothJoined phase. -/
def c7_m : ArenaStorage :=
  { game_state := 2, player_a := ⟨11, 12, 0, 0⟩, player_b := ⟨21, 22, 0, 0⟩,
    team_a := ⟨0, 0, 0, 0⟩, team_b := ⟨0, 0, 0, 0⟩, round := 0,
    move_a_commit := ⟨0, 0, 0, 0⟩, move_b_commit := ⟨0, 0, 0, 0⟩,
    move_a_reveal := ⟨0, 0, 0, 0⟩, move_b_reveal := ⟨0, 0, 0, 0⟩,
    champ_a_0 := ⟨0, 0, 0, 0⟩, champ_a_1 := ⟨0, 0, 0, 0⟩, champ_a_2 := ⟨0, 0, 0, 0⟩,
    champ_b_0 := ⟨0, 0, 0, 0⟩, champ_b_1 := ⟨0, 0, 0, 0⟩, champ_b_2 := ⟨0, 0, 0, 0⟩,
    timeout_height := 100, winner := 0, stake_a := 10000000, stake_b := 10000000,
    teams_submitted := 3, faucet_id := ⟨0, 0, 0, 0⟩, p2id_script_hash := ⟨0, 0, 0, 0⟩ }


/-- The payout identifiers (P2ID note serial numbers) of an effect trace,
in emission order. -/
def payout_ids (effs : List ArenaEff) : List Nat :=
  effs.filterMap fun e =>
    match e with
    | .payout _ _ _ i => some i
    | _ => none


/-- The payout-identifier band `claim_timeout` draws from at each claimable
phase: `1000000 + phase` (phase 1 emits a single refund; phases 2 and 3 may
also use `1000001 + phase` for the second refund of a draw). -/
def timeout_band (p : Nat) : List Nat :=
  if p = 1 then [1000001] else [1000000 + p, 1000001 + p]


/-- Arena storage for C8: the same timed-out match as `c7_m` but in the
Combat phase with no commits or reveals (progress 0-0, a draw). -/
def c8_m3 : ArenaStorage :=
  { c7_m with game_state := 3 }


-- ---------------------------------------------------------------------------
-- C1 — resolve_turn preserves the champion state invariant
-- ---------------------------------------------------------------------------

/-- The ChampionState invariant of the data model (§3):
`0 ≤ current_hp ≤ max_hp` (the lower bound is inherent to `Nat`) and
`is_ko ⇔ current_hp = 0`. -/
def stateInv (s : ChampionState) : Prop :=
  s.current_hp ≤ s.max_hp ∧ (s.is_ko = true ↔ s.current_hp = 0)


/-- Fresh Inferno (champion 0, HP 80), as produced by `init_champion_state`. -/
def c1w_a : ChampionState :=
  { id := 0, current_hp := 80, max_hp := 80, buffs := Buffs.empty, buff_count := 0,
    burn_turns := 0, is_ko := false, total_damage_dealt := 0 }


/-- Fresh Boulder (champion 1, HP 140), as produced by `init_champion_state`. -/
def c1w_b : ChampionState :=
  { id := 1, current_hp := 140, max_hp := 140, buffs := Buffs.empty, buff_count := 0,
    burn_turns := 0, is_ko := false, total_damage_dealt := 0 }


/-- The turn result of Inferno ability 0 vs Boulder ability 0: Inferno acts
first (speed 90 vs 45), dealing 89 (super effective), and takes 26 back. -/
def c1w_r : TurnResult :=
  { state_a := { c1w_a with current_hp := 54, total_damage_dealt := 89 },
    state_b := { c1w_b with current_hp := 51, total_damage_dealt := 26 },
    events := [.Attack 0 1 89 150, .Attack 1 0 26 67] }

-- ---------------------------------------------------------------------------
-- Theorems
-- ---------------------------------------------------------------------------


theorem pack_single_buff_active (b : BuffSlot) (hb : b.active = true) :
    pack_single_buff b =
      b.stat.toNat * 16384 + (if b.is_debuff then 1 else 0) * 8192 +
        b.value % 64 * 128 + b.turns_remaining % 16 * 8 + 4 := by
  have h64 : (64 : Nat) ∣ U16 := by norm_num [U16]
  have h16 : (16 : Nat) ∣ U16 := by norm_num [U16]
  have hsb : b.stat.toNat < 4 := by cases b.stat <;> simp [StatType.toNat]
  simp [pack_single_buff, hb, Nat.mod_mod_of_dvd _ h64, Nat.mod_mod_of_dvd _ h16,
    Nat.mod_eq_of_lt hsb]


theorem pack_single_buff_lt (b : BuffSlot) : pack_single_buff b < 65536 := by
  cases hb : b.active
  case false => simp [pack_single_buff, hb]
  case true =>
    rw [pack_single_buff_active b hb]
    have hsb : b.stat.toNat < 4 := by cases b.stat <;> simp [StatType.toNat]
    have hdb : (if b.is_debuff then 1 else 0) ≤ 1 := by split <;> omega
    have hvlt : b.value % 64 < 64 := Nat.mod_lt _ (by omega)
    have htlt : b.turns_remaining % 16 < 16 := Nat.mod_lt _ (by omega)
    omega


theorem bits_extract (sb db v t : Nat) (hsb : sb ≤ 2) (hdb : db ≤ 1)
    (hv : v < 64) (ht : t < 16) :
    (sb * 16384 + db * 8192 + v * 128 + t * 8 + 4) / 4 % 2 = 1 ∧
    (sb * 16384 + db * 8192 + v * 128 + t * 8 + 4) / 16384 % 4 = sb ∧
    (sb * 16384 + db * 8192 + v * 128 + t * 8 + 4) / 8192 % 2 = db ∧
    (sb * 16384 + db * 8192 + v * 128 + t * 8 + 4) / 128 % 64 = v ∧
    (sb * 16384 + db * 8192 + v * 128 + t * 8 + 4) / 8 % 16 = t := by
  omega


theorem unpack_pack_single (b : BuffSlot) :
    unpack_single_buff (pack_single_buff b) = some (buff_norm b) := by
  cases hb : b.active
  case false =>
    simp [pack_single_buff, unpack_single_buff, buff_norm, hb, BuffSlot.EMPTY]
  case true =>
    rw [pack_single_buff_active b hb]
    have hsb : b.stat.toNat ≤ 2 := by cases b.stat <;> simp [StatType.toNat]
    have hdb : (if b.is_debuff then 1 else 0) ≤ 1 := by split <;> omega
    have hvlt : b.value % 64 < 64 := Nat.mod_lt _ (by omega)
    have htlt : b.turns_remaining % 16 < 16 := Nat.mod_lt _ (by omega)
    obtain ⟨e1, e2, e3, e4, e5⟩ :=
      bits_extract b.stat.toNat (if b.is_debuff then 1 else 0)
        (b.value % 64) (b.turns_remaining % 16) hsb hdb hvlt htlt
    have hdb1 : ((if b.is_debuff then (1 : Nat) else 0) == 1) = b.is_debuff := by
      cases b.is_debuff <;> rfl
    simp only [unpack_single_buff, e1, e2, e3, e4, e5, hdb1, ne_eq]
    cases hstat : b.stat <;>
      simp [StatType.toNat, buff_norm, hb, hstat]


theorem unpack_pack (s : ChampionState) (w : Word4) (id : Nat)
    (hhp : s.current_hp < U32) (hmax : s.max_hp < U32)
    (hw : pack_champion_state s = some w) :
    unpack_champion_state w id = some (unpack_norm s id) := by
  have hq0 := pack_single_buff_lt s.buffs.b0
  have hq1 := pack_single_buff_lt s.buffs.b1
  have hq2 := pack_single_buff_lt s.buffs.b2
  have hq3 := pack_single_buff_lt s.buffs.b3
  simp only [U32] at hhp hmax
  have Eko : ((if s.is_ko then (1 : Nat) else 0) * U32 / U32 % 2 == 1) = s.is_ko := by
    cases s.is_ko <;> simp [U32]
  simp only [pack_champion_state] at hw
  set koflag := (if s.is_ko then (1 : Nat) else 0) with hko
  split_ifs at hw with h0 h1 h2
  · have hwe := Option.some.inj hw
    subst hwe
    have E0 : (pack_single_buff s.buffs.b0 * 281474976710656 +
        pack_single_buff s.buffs.b1 * U32 + pack_single_buff s.buffs.b2 * U16 +
        pack_single_buff s.buffs.b3) / 281474976710656 % U16 =
        pack_single_buff s.buffs.b0 := by
      simp only [U32, U16]; omega
    have E1 : (pack_single_buff s.buffs.b0 * 281474976710656 +
        pack_single_buff s.buffs.b1 * U32 + pack_single_buff s.buffs.b2 * U16 +
        pack_single_buff s.buffs.b3) / U32 % U16 = pack_single_buff s.buffs.b1 := by
      simp only [U32, U16]; omega
    have E2 : (pack_single_buff s.buffs.b0 * 281474976710656 +
        pack_single_buff s.buffs.b1 * U32 + pack_single_buff s.buffs.b2 * U16 +
        pack_single_buff s.buffs.b3) / U16 % U16 = pack_single_buff s.buffs.b2 := by
      simp only [U32, U16]; omega
    have E3 : (pack_single_buff s.buffs.b0 * 281474976710656 +
        pack_single_buff s.buffs.b1 * U32 + pack_single_buff s.buffs.b2 * U16 +
        pack_single_buff s.buffs.b3) % U16 = pack_single_buff s.buffs.b3 := by
      simp only [U32, U16]; omega
    have Ehp : (s.current_hp * U32 + s.max_hp) / U32 % U32 = s.current_hp := by
      simp only [U32]; omega
    have Emax : (s.current_hp * U32 + s.max_hp) % U32 = s.max_hp := by
      simp only [U32]; omega
    simp only [unpack_champion_state, E0, E1, E2, E3, Ehp, Emax, Eko,
      unpack_pack_single, Option.some_bind, unpack_norm]
    rfl


theorem pack_single_buff_le (b : BuffSlot) : pack_single_buff b ≤ 49148 := by
  cases hb : b.active
  case false => simp [pack_single_buff, hb]
  case true =>
    rw [pack_single_buff_active b hb]
    have hsb : b.stat.toNat ≤ 2 := by cases b.stat <;> simp [StatType.toNat]
    have hdb : (if b.is_debuff then 1 else 0) ≤ 1 := by split <;> omega
    have hvlt : b.value % 64 < 64 := Nat.mod_lt _ (by omega)
    have htlt : b.turns_remaining % 16 < 16 := Nat.mod_lt _ (by omega)
    omega


theorem unpack_burn_turns_zero (w : Word4) (id : Nat) (u : ChampionState)
    (h : unpack_champion_state w id = some u) : u.burn_turns = 0 := by
  unfold unpack_champion_state at h
  dsimp only at h
  simp only [Option.bind_eq_bind, Option.bind_eq_some, Option.some.injEq] at h
  obtain ⟨s0, _, s1, _, s2, _, s3, _, hu⟩ := h
  subst hu
  rfl


theorem read_champ_burn_zero (m : ArenaStorage) (slot cid : Nat) (st : ChampionState)
    (h : read_champ_state m slot cid = some st) : st.burn_turns = 0 := by
  unfold read_champ_state at h
  split at h
  all_goals
    first
    | exact Option.noConfusion h
    | exact unpack_burn_turns_zero _ cid st h


/-- C10: the packed layout carries no burn information. For every state `s`
(including any with `burn_turns > 0`), `unpack(pack(s), id)` has
`burn_turns = 0`; and every champion state the match state machine loads
from its storage words (`read_champ_state`, the only way
`resolve_current_turn` obtains combatants between rounds) has
`burn_turns = 0`, so a burn applied in one round never ticks in a later
round. -/
theorem packed_state_has_no_burn :
    (∀ (s : ChampionState) (w : Word4) (id : Nat) (u : ChampionState),
        pack_champion_state s = some w → unpack_champion_state w id = some u →
        u.burn_turns = 0) ∧
    (∀ (m : ArenaStorage) (slot cid : Nat) (st : ChampionState),
        read_champ_state m slot cid = some st → st.burn_turns = 0) :=
  ⟨fun _s w id u _hp hu => unpack_burn_turns_zero w id u hu,
   fun m slot cid st h => read_champ_burn_zero m slot cid st h⟩


/-- Witness for C10 at a concrete input: `c10_state` has `burn_turns = 5`,
packs successfully, and unpacks with `burn_turns = 0`. -/
theorem packed_state_has_no_burn_witness :
    c10_state.burn_turns = 5 ∧
    pack_champion_state c10_state = some ⟨214748364880, 0, 0, 0⟩ ∧
    unpack_champion_state ⟨214748364880, 0, 0, 0⟩ 0 =
      some { id := 0, current_hp := 50, max_hp := 80, buffs := Buffs.empty,
             buff_count := 0, burn_turns := 0, is_ko := false,
             total_damage_dealt := 0 } ∧
    ({ id := 0, current_hp := 50, max_hp := 80, buffs := Buffs.empty,
       buff_count := 0, burn_turns := 0, is_ko := false,
       total_damage_dealt := 0 } : ChampionState).burn_turns = 0 :=
  ⟨rfl, by decide, by decide,
   packed_state_has_no_burn.1 c10_state ⟨214748364880, 0, 0, 0⟩ 0
     { id := 0, current_hp := 50, max_hp := 80, buffs := Buffs.empty,
       buff_count := 0, burn_turns := 0, is_ko := false,
       total_damage_dealt := 0 } (by decide) (by decide)⟩


/-- C5 counterexample: the claim says a state with an active buff slot of
`value > 63` makes `pack_champion_state` fail with a fatal error. In fact
`c5_state` (active slot value 64) packs successfully — and the value comes
back as `64 & 0x3F = 0`, i.e. it is silently truncated, not rejected. -/
theorem pack_overflow_counterexample :
    c5_state.buffs.b0.active = true ∧ c5_state.buffs.b0.value = 64 ∧
    pack_champion_state c5_state = some ⟨42949672970, 0, 11532592745788997632, 0⟩ ∧
    unpack_champion_state ⟨42949672970, 0, 11532592745788997632, 0⟩ 0 =
      some { id := 0, current_hp := 10, max_hp := 10,
             buffs := ⟨⟨.Attack, 0, 1, true, true⟩, .EMPTY, .EMPTY, .EMPTY,
               .EMPTY, .EMPTY, .EMPTY, .EMPTY⟩,
             buff_count := 1, burn_turns := 0, is_ko := false,
             total_damage_dealt := 0 } := by
  refine ⟨rfl, rfl, by decide, by decide⟩


theorem pack_eq_none_iff (s : ChampionState) :
    pack_champion_state s = none ↔
      ¬(s.current_hp * U32 + s.max_hp < GOLDILOCKS_P) := by
  have h1 : (if s.is_ko then (1 : Nat) else 0) * U32 < GOLDILOCKS_P := by
    have : (if s.is_ko then (1 : Nat) else 0) ≤ 1 := by split <;> omega
    simp only [U32, GOLDILOCKS_P]
    omega
  have h2 : pack_single_buff s.buffs.b0 * 281474976710656 +
      pack_single_buff s.buffs.b1 * U32 + pack_single_buff s.buffs.b2 * U16 +
      pack_single_buff s.buffs.b3 < GOLDILOCKS_P := by
    have hb0 := pack_single_buff_le s.buffs.b0
    have hb1 := pack_single_buff_le s.buffs.b1
    have hb2 := pack_single_buff_le s.buffs.b2
    have hb3 := pack_single_buff_le s.buffs.b3
    simp only [U32, U16, GOLDILOCKS_P]
    omega
  by_cases h0 : s.current_hp * U32 + s.max_hp < GOLDILOCKS_P
  · simp [pack_champion_state, h0, h1, h2]
    split <;> (simp only [U32, GOLDILOCKS_P]; omega)
  · simp [pack_champion_state, h0]


/-- C5 amended: `pack_champion_state` fails (the `assert!` on the word
ceiling) exactly when a packed word reaches the Goldilocks prime, which for
a `u32`-valued state happens precisely when `current_hp = 2^32 - 1` and
`max_hp ≥ 1` (word 0 is the only word that can reach the ceiling). Buff
fields wider than their bit slots are not rejected: a pack/unpack cycle
returns `unpack_norm`, whose active slots carry `value % 64` and
`turns_remaining % 16` — silent masking, never an error. -/
theorem pack_failure_characterization :
    (∀ s : ChampionState, s.current_hp < U32 → s.max_hp < U32 →
      (pack_champion_state s = none ↔ s.current_hp = U32 - 1 ∧ 1 ≤ s.max_hp)) ∧
    (∀ (s : ChampionState) (w : Word4) (id : Nat),
      s.current_hp < U32 → s.max_hp < U32 → pack_champion_state s = some w →
      unpack_champion_state w id = some (unpack_norm s id)) := by
  constructor
  · intro s hhp hmax
    rw [pack_eq_none_iff]
    simp only [U32, GOLDILOCKS_P] at *
    omega
  · intro s w id hhp hmax hw
    exact unpack_pack s w id hhp hmax hw


/-- Witness for C5 amended at concrete inputs: a state with
`current_hp = 2^32 - 1`, `max_hp = 1` is rejected, and `c5_state` packs and
unpacks to its normal form (with the 64 masked to 0). -/
theorem pack_failure_characterization_witness :
    pack_champion_state { c5_state with current_hp := 4294967295, max_hp := 1 } = none ∧
    unpack_champion_state ⟨42949672970, 0, 11532592745788997632, 0⟩ 0 =
      some (unpack_norm c5_state 0) :=
  ⟨(pack_failure_characterization.1
      { c5_state with current_hp := 4294967295, max_hp := 1 }
      (by decide) (by decide)).2 ⟨rfl, by decide⟩,
   pack_failure_characterization.2 c5_state ⟨42949672970, 0, 11532592745788997632, 0⟩ 0
     (by decide) (by decide) (by decide)⟩


theorem buff_norm_eq_self (b : BuffSlot) (hb : b.active = true)
    (hv : b.value ≤ 63) (ht : b.turns_remaining ≤ 15) : buff_norm b = b := by
  have h1 : b.value % 64 = b.value := Nat.mod_eq_of_lt (by omega)
  have h2 : b.turns_remaining % 16 = b.turns_remaining := Nat.mod_eq_of_lt (by omega)
  obtain ⟨st, v, t, d, a⟩ := b
  simp only at hb h1 h2
  subst hb
  simp [buff_norm, h1, h2]


theorem buff_norm_active (b : BuffSlot) : (buff_norm b).active = b.active := by
  cases hb : b.active <;> simp [buff_norm, hb, BuffSlot.EMPTY]


theorem count_norm (a b c d : BuffSlot) :
    (List.filter (fun x => x.active)
      [buff_norm a, buff_norm b, buff_norm c, buff_norm d,
        BuffSlot.EMPTY, BuffSlot.EMPTY, BuffSlot.EMPTY, BuffSlot.EMPTY]).length =
    (List.filter (fun x => x.active) [a, b, c, d]).length := by
  cases ha : a.active <;> cases hb : b.active <;> cases hc : c.active <;> cases hd : d.active <;>
    simp [List.filter, buff_norm_active, ha, hb, hc, hd, BuffSlot.EMPTY]


/-- C4 counterexample: `c4_state` satisfies the claim's validity condition
(every active slot among the first 4 is in range — vacuously, none is
active), yet `unpack(pack(c4_state), 3)` does not reproduce the first 4
buff slots exactly: the inactive slot 0 loses its leftover value and comes
back as `EMPTY`. -/
theorem pack_roundtrip_counterexample :
    claim_valid_first4 c4_state ∧
    pack_champion_state c4_state = some ⟨42949672970, 0, 0, 0⟩ ∧
    unpack_champion_state ⟨42949672970, 0, 0, 0⟩ 3 =
      some { id := 3, current_hp := 10, max_hp := 10, buffs := Buffs.empty,
             buff_count := 0, burn_turns := 0, is_ko := false,
             total_damage_dealt := 0 } ∧
    ({ id := 3, current_hp := 10, max_hp := 10, buffs := Buffs.empty,
       buff_count := 0, burn_turns := 0, is_ko := false,
       total_damage_dealt := 0 } : ChampionState).buffs.b0 ≠ c4_state.buffs.b0 := by
  refine ⟨by decide, by decide, by decide, by decide⟩


/-- C4 amended: for a `u32`-valued state whose active slots among the first
4 respect the packed bit widths (`value ≤ 63`, `turns_remaining ≤ 15`), a
pack/unpack cycle under champion id `id` reproduces `current_hp`, `max_hp`,
`is_ko`, and every **active** slot among the first 4 exactly; an inactive
slot among the first 4 comes back as `EMPTY` (its residual field values are
not preserved); and `buff_count` is the number of active entries among the
first 4 slots. -/
theorem pack_roundtrip (s : ChampionState) (w : Word4) (id : Nat) (u : ChampionState)
    (hhp : s.current_hp < U32) (hmax : s.max_hp < U32)
    (hv : claim_valid_first4 s)
    (hw : pack_champion_state s = some w)
    (hu : unpack_champion_state w id = some u) :
    u.id = id ∧ u.current_hp = s.current_hp ∧ u.max_hp = s.max_hp ∧
    u.is_ko = s.is_ko ∧
    (s.buffs.b0.active = true → u.buffs.b0 = s.buffs.b0) ∧
    (s.buffs.b0.active = false → u.buffs.b0 = BuffSlot.EMPTY) ∧
    (s.buffs.b1.active = true → u.buffs.b1 = s.buffs.b1) ∧
    (s.buffs.b1.active = false → u.buffs.b1 = BuffSlot.EMPTY) ∧
    (s.buffs.b2.active = true → u.buffs.b2 = s.buffs.b2) ∧
    (s.buffs.b2.active = false → u.buffs.b2 = BuffSlot.EMPTY) ∧
    (s.buffs.b3.active = true → u.buffs.b3 = s.buffs.b3) ∧
    (s.buffs.b3.active = false → u.buffs.b3 = BuffSlot.EMPTY) ∧
    u.buff_count = (List.filter (fun x => x.active)
      [s.buffs.b0, s.buffs.b1, s.buffs.b2, s.buffs.b3]).length := by
  obtain ⟨hv0, hv1, hv2, hv3⟩ := hv
  have hn := unpack_pack s w id hhp hmax hw
  rw [hn] at hu
  obtain rfl := (Option.some.inj hu).symm
  refine ⟨rfl, rfl, rfl, rfl, ?_, ?_, ?_, ?_, ?_, ?_, ?_, ?_, ?_⟩
  · intro ha
    exact buff_norm_eq_self _ ha (hv0 ha).1 (hv0 ha).2
  · intro ha
    simp [unpack_norm, buff_norm, ha]
  · intro ha
    exact buff_norm_eq_self _ ha (hv1 ha).1 (hv1 ha).2
  · intro ha
    simp [unpack_norm, buff_norm, ha]
  · intro ha
    exact buff_norm_eq_self _ ha (hv2 ha).1 (hv2 ha).2
  · intro ha
    simp [unpack_norm, buff_norm, ha]
  · intro ha
    exact buff_norm_eq_self _ ha (hv3 ha).1 (hv3 ha).2
  · intro ha
    simp [unpack_norm, buff_norm, ha]
  · simp only [unpack_norm, Buffs.toList]
    exact count_norm s.buffs.b0 s.buffs.b1 s.buffs.b2 s.buffs.b3


/-- Witness for C4 amended at a concrete input: `c4w_state` packs, unpacks
back to itself, and the theorem's conclusion holds there. -/
theorem pack_roundtrip_witness :
    claim_valid_first4 c4w_state ∧
    pack_champion_state c4w_state = some ⟨193273528405, 0, 221980454071321244, 0⟩ ∧
    unpack_champion_state ⟨193273528405, 0, 221980454071321244, 0⟩ 7 = some c4w_state ∧
    (c4w_state.id = 7 ∧ c4w_state.current_hp = c4w_state.current_hp ∧
      c4w_state.max_hp = c4w_state.max_hp ∧ c4w_state.is_ko = c4w_state.is_ko ∧
      (c4w_state.buffs.b0.active = true → c4w_state.buffs.b0 = c4w_state.buffs.b0) ∧
      (c4w_state.buffs.b0.active = false → c4w_state.buffs.b0 = BuffSlot.EMPTY) ∧
      (c4w_state.buffs.b1.active = true → c4w_state.buffs.b1 = c4w_state.buffs.b1) ∧
      (c4w_state.buffs.b1.active = false → c4w_state.buffs.b1 = BuffSlot.EMPTY) ∧
      (c4w_state.buffs.b2.active = true → c4w_state.buffs.b2 = c4w_state.buffs.b2) ∧
      (c4w_state.buffs.b2.active = false → c4w_state.buffs.b2 = BuffSlot.EMPTY) ∧
      (c4w_state.buffs.b3.active = true → c4w_state.buffs.b3 = c4w_state.buffs.b3) ∧
      (c4w_state.buffs.b3.active = false → c4w_state.buffs.b3 = BuffSlot.EMPTY) ∧
      c4w_state.buff_count = (List.filter (fun x => x.active)
        [c4w_state.buffs.b0, c4w_state.buffs.b1, c4w_state.buffs.b2,
          c4w_state.buffs.b3]).length) :=
  ⟨by decide, by decide, by decide,
   pack_roundtrip c4w_state ⟨193273528405, 0, 221980454071321244, 0⟩ 7 c4w_state
     (by decide) (by decide) (by decide) (by decide) (by decide)⟩


theorem sum_buffs_foldlM (stat : StatType) (l : List BuffSlot) :
    ∀ (acc n : Nat), l.foldlM (sum_buffs_step stat) acc = some n →
      n = acc + spec_buff_sum l stat := by
  induction l with
  | nil =>
    intro acc n h
    simp only [List.foldlM_nil] at h
    obtain rfl := Option.some.inj h
    simp [spec_buff_sum]
  | cons b t ih =>
    intro acc n h
    rw [List.foldlM_cons] at h
    unfold sum_buffs_step at h
    by_cases hc : (b.active && b.stat == stat && !b.is_debuff) = true
    · rw [if_pos hc] at h
      unfold add32 at h
      by_cases hlt : acc + b.value < U32
      · rw [if_pos hlt] at h
        rw [Option.bind_eq_bind, Option.some_bind] at h
        have hr := ih (acc + b.value) n h
        simp only [spec_buff_sum, List.filter_cons, hc, if_true, List.map_cons,
          List.sum_cons]
        simp only [spec_buff_sum] at hr
        omega
      · rw [if_neg hlt] at h
        exact Option.noConfusion h
    · rw [if_neg hc] at h
      rw [Option.bind_eq_bind, Option.some_bind] at h
      have hr := ih acc n h
      simp only [Bool.not_eq_true] at hc
      simp only [spec_buff_sum, List.filter_cons, hc, if_false, List.map_cons]
      simp only [spec_buff_sum] at hr
      exact hr


theorem sum_debuffs_foldlM (stat : StatType) (l : List BuffSlot) :
    ∀ (acc n : Nat), l.foldlM (sum_debuffs_step stat) acc = some n →
      n = acc + spec_debuff_sum l stat := by
  induction l with
  | nil =>
    intro acc n h
    simp only [List.foldlM_nil] at h
    obtain rfl := Option.some.inj h
    simp [spec_debuff_sum]
  | cons b t ih =>
    intro acc n h
    rw [List.foldlM_cons] at h
    unfold sum_debuffs_step at h
    by_cases hc : (b.active && b.stat == stat && b.is_debuff) = true
    · rw [if_pos hc] at h
      unfold add32 at h
      by_cases hlt : acc + b.value < U32
      · rw [if_pos hlt] at h
        rw [Option.bind_eq_bind, Option.some_bind] at h
        have hr := ih (acc + b.value) n h
        simp only [spec_debuff_sum, List.filter_cons, hc, if_true, List.map_cons,
          List.sum_cons]
        simp only [spec_debuff_sum] at hr
        omega
      · rw [if_neg hlt] at h
        exact Option.noConfusion h
    · rw [if_neg hc] at h
      rw [Option.bind_eq_bind, Option.some_bind] at h
      have hr := ih acc n h
      simp only [Bool.not_eq_true] at hc
      simp only [spec_debuff_sum, List.filter_cons, hc, if_false, List.map_cons]
      simp only [spec_debuff_sum] at hr
      exact hr


/-- Checked `sum_buffs` computes the specification-side sum when it
succeeds. -/
theorem sum_buffs_eq (s : ChampionState) (stat : StatType) (n : Nat)
    (h : sum_buffs s stat = some n) : n = spec_buff_sum s.buffs.toList stat := by
  have := sum_buffs_foldlM stat s.buffs.toList 0 n h
  omega


/-- Checked `sum_debuffs` computes the specification-side sum when it
succeeds. -/
theorem sum_debuffs_eq (s : ChampionState) (stat : StatType) (n : Nat)
    (h : sum_debuffs s stat = some n) : n = spec_debuff_sum s.buffs.toList stat := by
  have := sum_debuffs_foldlM stat s.buffs.toList 0 n h
  omega


/-- C2 counterexample: the claim's formula says damage =
`raw - effective_defense` with `raw = floor(power*(20+atk)*mult/2000)`.
For `power = 2^26`, `attack = 1980`, same-element (mult 100), zero
defense, the specified raw is 6710886400, so the specified damage is
6710886400; but `calculate_damage` casts raw to `u32`
(`6710886400 mod 2^32 = 2415919104`) and returns 2415919104. -/
theorem calculate_damage_truncates_counterexample :
    calculate_damage c2_attacker c2_defender c2_state
        (dmgAbility 67108864) c2_state = some (2415919104, 100) ∧
    spec_damage c2_attacker c2_defender c2_state
        (dmgAbility 67108864) c2_state = (6710886400, 100) ∧
    (2415919104, 100) ≠ ((6710886400, 100) : Nat × Nat) := by
  refine ⟨by decide, by decide, by decide⟩


/-- C2 amended: whenever `calculate_damage` returns, the multiplier is the
elemental multiplier and the damage is at least 1; and whenever the
specified raw value fits `u32` (no truncation in the `raw as u32` cast),
the result is exactly the specified `(damage, mult)` of the claim's
formula. The minimum-damage floor over the whole catalog holds as well. -/
theorem calculate_damage_formula :
    (∀ (attacker defender : Champion) (ds : ChampionState) (ab : Ability)
        (as0 : ChampionState) (d m : Nat),
      calculate_damage attacker defender ds ab as0 = some (d, m) →
      1 ≤ d ∧ m = get_type_multiplier attacker.element defender.element ∧
      (ab.power * (20 + (attacker.attack - spec_debuff_sum as0.buffs.toList .Attack)) *
          get_type_multiplier attacker.element defender.element / 2000 < U32 →
        (d, m) = spec_damage attacker defender ds ab as0)) ∧
    catalog_min_damage_check = true := by
  constructor
  · intro attacker defender ds ab as0 d m h
    unfold calculate_damage at h
    simp only [Option.bind_eq_bind, Option.bind_eq_some, Option.some.injEq,
      Prod.mk.injEq] at h
    obtain ⟨ad, had, db, hdb, ed, hed, m1, hm1, m2, hm2, hd, hm⟩ := h
    have had2 := sum_debuffs_eq as0 .Attack ad had
    have hdb2 := sum_buffs_eq ds .Defense db hdb
    unfold add32 at hed
    have hed2 : ed = defender.defense + db := by
      by_cases hlt : defender.defense + db < U32
      · rw [if_pos hlt] at hed; exact (Option.some.inj hed).symm
      · rw [if_neg hlt] at hed; exact Option.noConfusion hed
    unfold mul64 at hm1 hm2
    have hm1e : m1 = ab.power * (20 + (attacker.attack - ad)) := by
      by_cases hlt : ab.power * (20 + (attacker.attack - ad)) < U64
      · rw [if_pos hlt] at hm1; exact (Option.some.inj hm1).symm
      · rw [if_neg hlt] at hm1; exact Option.noConfusion hm1
    have hm2e : m2 = m1 * get_type_multiplier attacker.element defender.element := by
      by_cases hlt : m1 * get_type_multiplier attacker.element defender.element < U64
      · rw [if_pos hlt] at hm2; exact (Option.some.inj hm2).symm
      · rw [if_neg hlt] at hm2; exact Option.noConfusion hm2
    subst hm1e hm2e hed2 had2 hdb2
    refine ⟨?_, hm.symm, ?_⟩
    · rw [← hd]
      split
      · omega
      · omega
    · intro hraw
      have hmod : ab.power * (20 + (attacker.attack -
          spec_debuff_sum as0.buffs.toList .Attack)) *
          get_type_multiplier attacker.element defender.element / 2000 % U32 =
          ab.power * (20 + (attacker.attack -
            spec_debuff_sum as0.buffs.toList .Attack)) *
          get_type_multiplier attacker.element defender.element / 2000 :=
        Nat.mod_eq_of_lt hraw
      unfold spec_damage
      rw [← hd, ← hm]
      simp only [hmod]
  · decide


/-- Witness for C2 amended at a concrete input: Ember's Fireball against
Boulder (the repository's own worked example) returns exactly the
specified (51, 150). -/
theorem calculate_damage_formula_witness :
    calculate_damage
        { id := 2, hp := 90, attack := 16, defense := 8, speed := 14, element := .Fire,
          abilities := (dmgAbility 25, buffAbility .Defense 5 2) }
        { id := 1, hp := 140, attack := 14, defense := 16, speed := 5, element := .Earth,
          abilities := (dmgAbility 28, buffAbility .Defense 6 2) }
        { id := 1, current_hp := 140, max_hp := 140, buffs := Buffs.empty,
          buff_count := 0, burn_turns := 0, is_ko := false, total_damage_dealt := 0 }
        (dmgAbility 25)
        { id := 2, current_hp := 90, max_hp := 90, buffs := Buffs.empty,
          buff_count := 0, burn_turns := 0, is_ko := false, total_damage_dealt := 0 } =
      some (51, 150) ∧
    (1 ≤ 51 ∧ 150 = get_type_multiplier Element.Fire Element.Earth ∧
      (25 * (20 + (16 - spec_debuff_sum Buffs.empty.toList .Attack)) *
          get_type_multiplier Element.Fire Element.Earth / 2000 < U32 →
        ((51, 150) : Nat × Nat) =
          spec_damage
            { id := 2, hp := 90, attack := 16, defense := 8, speed := 14, element := .Fire,
              abilities := (dmgAbility 25, buffAbility .Defense 5 2) }
            { id := 1, hp := 140, attack := 14, defense := 16, speed := 5, element := .Earth,
              abilities := (dmgAbility 28, buffAbility .Defense 6 2) }
            { id := 1, current_hp := 140, max_hp := 140, buffs := Buffs.empty,
              buff_count := 0, burn_turns := 0, is_ko := false, total_damage_dealt := 0 }
            (dmgAbility 25)
            { id := 2, current_hp := 90, max_hp := 90, buffs := Buffs.empty,
              buff_count := 0, burn_turns := 0, is_ko := false,
              total_damage_dealt := 0 })) :=
  ⟨by decide,
   calculate_damage_formula.1
     { id := 2, hp := 90, attack := 16, defense := 8, speed := 14, element := .Fire,
       abilities := (dmgAbility 25, buffAbility .Defense 5 2) }
     { id := 1, hp := 140, attack := 14, defense := 16, speed := 5, element := .Earth,
       abilities := (dmgAbility 28, buffAbility .Defense 6 2) }
     { id := 1, current_hp := 140, max_hp := 140, buffs := Buffs.empty,
       buff_count := 0, burn_turns := 0, is_ko := false, total_damage_dealt := 0 }
     (dmgAbility 25)
     { id := 2, current_hp := 90, max_hp := 90, buffs := Buffs.empty,
       buff_count := 0, burn_turns := 0, is_ko := false, total_damage_dealt := 0 }
     51 150 (by decide)⟩


-- ---------------------------------------------------------------------------
-- C3 / C9 — speed priority and the tie break
-- ---------------------------------------------------------------------------

/-- C3: speed priority in `resolve_turn`. With the champions and effective
speeds the code computes (`speed = champion.speed + sum_buffs(state, Speed)`,
which equals the specification-side sum when it succeeds, first two
conclusions): the strictly faster side acts first; on an exact tie the side
with the strictly lower champion id acts first; and within each branch, if
the first action knocks the second combatant out, the second action is not
executed — the round finishes directly from the first action's states. -/
theorem resolve_turn_speed_priority
    (sa sb : ChampionState) (aa ab : TurnAction) (ca cb : Champion)
    (nsa nsb spA spB : Nat)
    (hca : get_champion sa.id = some ca) (hcb : get_champion sb.id = some cb)
    (hsa : sum_buffs sa .Speed = some nsa) (hsb : sum_buffs sb .Speed = some nsb)
    (hspa : add32 ca.speed nsa = some spA) (hspb : add32 cb.speed nsb = some spB) :
    spA = ca.speed + spec_buff_sum sa.buffs.toList .Speed ∧
    spB = cb.speed + spec_buff_sum sb.buffs.toList .Speed ∧
    (spA > spB →
      resolve_turn sa sb aa ab = act_phase_a_first ca cb sa sb aa ab) ∧
    (spB > spA →
      resolve_turn sa sb aa ab = act_phase_b_first ca cb sa sb aa ab) ∧
    (spA = spB → ca.id < cb.id →
      resolve_turn sa sb aa ab = act_phase_a_first ca cb sa sb aa ab) ∧
    (spA = spB → cb.id < ca.id →
      resolve_turn sa sb aa ab = act_phase_b_first ca cb sa sb aa ab) ∧
    (∀ a1 b1 ev1, execute_action ca sa aa cb sb [] = some (a1, b1, ev1) →
      b1.is_ko = true →
      act_phase_a_first ca cb sa sb aa ab = finish_turn a1 b1 ev1) ∧
    (∀ b1 a1 ev1, execute_action cb sb ab ca sa [] = some (b1, a1, ev1) →
      a1.is_ko = true →
      act_phase_b_first ca cb sa sb aa ab = finish_turn a1 b1 ev1) := by
  have hspa2 : spA = ca.speed + nsa := by
    unfold add32 at hspa
    by_cases hlt : ca.speed + nsa < U32
    · rw [if_pos hlt] at hspa; exact (Option.some.inj hspa).symm
    · rw [if_neg hlt] at hspa; exact Option.noConfusion hspa
  have hspb2 : spB = cb.speed + nsb := by
    unfold add32 at hspb
    by_cases hlt : cb.speed + nsb < U32
    · rw [if_pos hlt] at hspb; exact (Option.some.inj hspb).symm
    · rw [if_neg hlt] at hspb; exact Option.noConfusion hspb
  have hnsa := sum_buffs_eq sa .Speed nsa hsa
  have hnsb := sum_buffs_eq sb .Speed nsb hsb
  refine ⟨by omega, by omega, ?_, ?_, ?_, ?_, ?_, ?_⟩
  · intro hgt
    unfold resolve_turn
    simp only [hca, hcb, hsa, hsb, hspa, hspb, Option.bind_eq_bind, Option.some_bind]
    have hcond : (spA > spB || (spA == spB && ca.id < cb.id)) = true := by
      simp only [Bool.or_eq_true, decide_eq_true_eq]
      exact Or.inl hgt
    rw [hcond, if_pos rfl]
  · intro hgt
    unfold resolve_turn
    simp only [hca, hcb, hsa, hsb, hspa, hspb, Option.bind_eq_bind, Option.some_bind]
    have hcond : (spA > spB || (spA == spB && ca.id < cb.id)) = false := by
      simp only [Bool.or_eq_false_iff, Bool.and_eq_false_iff, decide_eq_false_iff_not,
        beq_eq_false_iff_ne, ne_eq]
      exact ⟨by omega, Or.inl (by omega)⟩
    rw [hcond]
    simp only [Bool.false_eq_true, if_false]
  · intro heq hid
    unfold resolve_turn
    simp only [hca, hcb, hsa, hsb, hspa, hspb, Option.bind_eq_bind, Option.some_bind]
    have hcond : (spA > spB || (spA == spB && ca.id < cb.id)) = true := by
      simp only [Bool.or_eq_true, Bool.and_eq_true, decide_eq_true_eq, beq_iff_eq]
      exact Or.inr ⟨heq, hid⟩
    rw [hcond, if_pos rfl]
  · intro heq hid
    unfold resolve_turn
    simp only [hca, hcb, hsa, hsb, hspa, hspb, Option.bind_eq_bind, Option.some_bind]
    have hcond : (spA > spB || (spA == spB && ca.id < cb.id)) = false := by
      simp only [Bool.or_eq_false_iff, Bool.and_eq_false_iff, decide_eq_false_iff_not,
        beq_eq_false_iff_ne, ne_eq]
      exact ⟨by omega, Or.inr (by omega)⟩
    rw [hcond]
    simp only [Bool.false_eq_true, if_false]
  · intro a1 b1 ev1 hex hko
    unfold act_phase_a_first
    simp only [hex, Option.bind_eq_bind, Option.some_bind, hko]
    simp
  · intro b1 a1 ev1 hex hko
    unfold act_phase_b_first
    simp only [hex, Option.bind_eq_bind, Option.some_bind, hko]
    simp


/-- Witness for C3 at a concrete input: Gale (effective speed 18) against
Boulder (effective speed 5) resolves through the A-first branch. -/
theorem resolve_turn_speed_priority_witness :
    resolve_turn gale_state boulder_state ⟨4, 0⟩ ⟨1, 0⟩ =
      act_phase_a_first gale_champ boulder_champ gale_state boulder_state ⟨4, 0⟩ ⟨1, 0⟩ :=
  (resolve_turn_speed_priority gale_state boulder_state ⟨4, 0⟩ ⟨1, 0⟩
    gale_champ boulder_champ 0 0 18 5 (by decide) (by decide) (by decide) (by decide)
    (by decide) (by decide)).2.2.1 (by decide)


/-- C9 counterexample: the identical champion (id 0) on both sides, both at
1 hit point, both using the damage ability. Any damage ability deals at
least 1 damage, so whichever side acts first knocks the other out and the
other side's action is skipped. The claim says side A always resolves
first, which would leave `state_b` knocked out and `state_a` alive; the
code produces the opposite — `state_a` is knocked out and `state_b`
survives — so on an equal-id tie side B acts first. -/
theorem speed_tie_equal_id_counterexample :
    (resolve_turn c9_state c9_state ⟨0, 0⟩ ⟨0, 0⟩).map
      (fun r => (r.state_a.is_ko, r.state_b.is_ko)) = some (true, false) := by
  decide


/-- C9 amended: on an exact effective-speed tie, the code breaks the tie
with `champ_a.id < champ_b.id`; with the identical champion on both sides
the ids are equal, the comparison is false, and the action of side B — not
side A — resolves first. -/
theorem speed_tie_equal_id_b_first
    (sa sb : ChampionState) (aa ab : TurnAction) (ca cb : Champion)
    (nsa nsb spA spB : Nat)
    (hca : get_champion sa.id = some ca) (hcb : get_champion sb.id = some cb)
    (hsa : sum_buffs sa .Speed = some nsa) (hsb : sum_buffs sb .Speed = some nsb)
    (hspa : add32 ca.speed nsa = some spA) (hspb : add32 cb.speed nsb = some spB)
    (heq : spA = spB) (hid : ca.id = cb.id) :
    resolve_turn sa sb aa ab = act_phase_b_first ca cb sa sb aa ab := by
  unfold resolve_turn
  simp only [hca, hcb, hsa, hsb, hspa, hspb, Option.bind_eq_bind, Option.some_bind]
  have hcond : (spA > spB || (spA == spB && ca.id < cb.id)) = false := by
    simp only [Bool.or_eq_false_iff, Bool.and_eq_false_iff, decide_eq_false_iff_not,
      beq_eq_false_iff_ne, ne_eq]
    exact ⟨by omega, Or.inr (by omega)⟩
  rw [hcond]
  simp only [Bool.false_eq_true, if_false]


/-- Witness for C9 amended at a concrete input: identical champion 0 on
both sides resolves through the B-first branch. -/
theorem speed_tie_equal_id_b_first_witness :
    resolve_turn c9_state c9_state ⟨0, 0⟩ ⟨0, 0⟩ =
      act_phase_b_first inferno_champ inferno_champ c9_state c9_state ⟨0, 0⟩ ⟨0, 0⟩ :=
  speed_tie_equal_id_b_first c9_state c9_state ⟨0, 0⟩ ⟨0, 0⟩
    inferno_champ inferno_champ 0 0 16 16 (by decide) (by decide) (by decide)
    (by decide) (by decide) (by decide) rfl rfl


/-- C6 counterexample: the library `resolve_turn` contains no alive
assertion. Called with a knocked-out second combatant it proceeds as a
normal execution path — it returns a result (with the alive side's attack
executed against the corpse and a new Ko event emitted) rather than
failing. -/
theorem resolve_turn_no_ko_assertion_counterexample :
    boulder_ko_state.is_ko = true ∧
    (resolve_turn inferno_state boulder_ko_state ⟨0, 0⟩ ⟨1, 0⟩).map
      (fun r => (r.events.length, r.state_a.is_ko, r.state_b.is_ko)) =
      some (2, false, true) := by
  refine ⟨rfl, by decide⟩


/-- C6 amended: the fatal defensive alive-assertion lives one level up, in
the match state machine: `ArenaAccount::resolve_current_turn` loads both
selected champion states and aborts (`assert!`, modelled as `none`) when
either is knocked out, before any combat math runs — while the engine's
`resolve_turn` itself has no such check. -/
theorem resolve_current_turn_ko_assertion
    (m : ArenaStorage) (aa abAct : TurnAction) (slota slotb : Nat)
    (sa sb : ChampionState)
    (hda : decode_move (m.move_a_reveal.w0 % U32) = some aa)
    (hdb : decode_move (m.move_b_reveal.w0 % U32) = some abAct)
    (hfa : find_team_slot m true aa.champion_id = some slota)
    (hfb : find_team_slot m false abAct.champion_id = some slotb)
    (hra : read_champ_state m slota aa.champion_id = some sa)
    (hrb : read_champ_state m slotb abAct.champion_id = some sb)
    (hko : sa.is_ko = true ∨ sb.is_ko = true) :
    resolve_combat_core m = none ∧
    (∀ blk, resolve_current_turn m blk = none) := by
  have hcore : resolve_combat_core m = none := by
    unfold resolve_combat_core
    simp only [hda, hdb, hfa, hfb, hra, hrb, Option.bind_eq_bind, Option.some_bind]
    rcases hko with h | h
    · simp [h]
    · cases hsa : sa.is_ko
      · simp [hsa, h]
      · simp [hsa]
  refine ⟨hcore, fun blk => ?_⟩
  unfold resolve_current_turn
  simp [hcore]


/-- Witness for C6 amended at a concrete input: in `c6_m` the revealed
move 1 selects the knocked-out champion 0 (hp 0, KO bit set in slot 10),
and `resolve_current_turn` aborts. -/
theorem resolve_current_turn_ko_assertion_witness :
    resolve_combat_core c6_m = none ∧ resolve_current_turn c6_m 50 = none :=
  ⟨(resolve_current_turn_ko_assertion c6_m ⟨0, 0⟩ ⟨3, 0⟩ 10 13
      { id := 0, current_hp := 0, max_hp := 80, buffs := Buffs.empty,
        buff_count := 0, burn_turns := 0, is_ko := true, total_damage_dealt := 0 }
      { id := 3, current_hp := 110, max_hp := 110, buffs := Buffs.empty,
        buff_count := 0, burn_turns := 0, is_ko := false, total_damage_dealt := 0 }
      (by decide) (by decide) (by decide) (by decide) (by decide) (by decide)
      (Or.inl rfl)).1,
   (resolve_current_turn_ko_assertion c6_m ⟨0, 0⟩ ⟨3, 0⟩ 10 13
      { id := 0, current_hp := 0, max_hp := 80, buffs := Buffs.empty,
        buff_count := 0, burn_turns := 0, is_ko := true, total_damage_dealt := 0 }
      { id := 3, current_hp := 110, max_hp := 110, buffs := Buffs.empty,
        buff_count := 0, burn_turns := 0, is_ko := false, total_damage_dealt := 0 }
      (by decide) (by decide) (by decide) (by decide) (by decide) (by decide)
      (Or.inl rfl)).2 50⟩


/-- C7 counterexample: a successful `claim_timeout` on the timed-out
BothJoined match `c7_m` emits, in program order, the two refund payouts
first and the Resolved phase write last — the transition to Resolved does
NOT precede the payouts as claimed. -/
theorem claim_timeout_order_counterexample :
    (claim_timeout 101 c7_m 11 12).map (fun r => r.2) =
      some [ArenaEff.payout 11 12 10000000 1000002,
            ArenaEff.payout 21 22 10000000 1000003,
            ArenaEff.setPhase 4] ∧
    (claim_timeout 101 c7_m 11 12).map (fun r => resolved_first r.2) = some false := by
  refine ⟨by decide, by decide⟩


/-- A match whose phase slot holds 4 (Resolved) rejects `claim_timeout`. -/
theorem claim_timeout_rejects_resolved (blk : Nat) (m : ArenaStorage) (p q : Nat)
    (h4 : m.game_state = 4) : claim_timeout blk m p q = none := by
  unfold claim_timeout
  rw [h4]
  norm_num


set_option maxHeartbeats 1600000 in
/-- C7 amended: `claim_timeout` issues its payouts first and writes the
Resolved phase as the last step of the same atomic call (the trace always
ends with the phase-4 write); the resulting stored phase is 4, so every
subsequent `claim_timeout` on the same match is rejected by the phase guard
and issues no payout. Duplicate-invocation safety holds, but through the
call's atomicity, not through a transition ordered before the payouts. -/
theorem claim_timeout_idempotent (blk : Nat) (m : ArenaStorage) (p q : Nat)
    (r : ArenaStorage × List ArenaEff)
    (h : claim_timeout blk m p q = some r) :
    r.1.game_state = 4 ∧ r.2.getLast? = some (ArenaEff.setPhase 4) ∧
    (∀ blk2 p2 q2, claim_timeout blk2 r.1 p2 q2 = none) := by
  unfold claim_timeout at h
  dsimp only at h
  split_ifs at h
  all_goals
    try (rw [Option.bind_eq_bind, Option.bind_eq_some] at h;
         obtain ⟨total, _, h⟩ := h)
  all_goals
    obtain rfl := (Option.some.inj h).symm
  all_goals
    exact ⟨rfl, rfl, fun blk2 p2 q2 => claim_timeout_rejects_resolved blk2 _ p2 q2 rfl⟩


/-- Witness for C7 amended at a concrete input: the successful claim on
`c7_m` ends in phase 4, its trace ends with the phase write, and a second
claim is rejected. -/
theorem claim_timeout_idempotent_witness :
    claim_timeout 101 c7_m 11 12 =
      some ({ c7_m with game_state := 4 },
        [ArenaEff.payout 11 12 10000000 1000002,
         ArenaEff.payout 21 22 10000000 1000003,
         ArenaEff.setPhase 4]) ∧
    ({ c7_m with game_state := 4 } : ArenaStorage).game_state = 4 ∧
    ([ArenaEff.payout 11 12 10000000 1000002,
      ArenaEff.payout 21 22 10000000 1000003,
      ArenaEff.setPhase 4].getLast? = some (ArenaEff.setPhase 4)) ∧
    claim_timeout 200 { c7_m with game_state := 4 } 11 12 = none :=
  ⟨by decide,
   (claim_timeout_idempotent 101 c7_m 11 12
     ({ c7_m with game_state := 4 },
       [ArenaEff.payout 11 12 10000000 1000002,
        ArenaEff.payout 21 22 10000000 1000003,
        ArenaEff.setPhase 4]) (by decide)).1,
   (claim_timeout_idempotent 101 c7_m 11 12
     ({ c7_m with game_state := 4 },
       [ArenaEff.payout 11 12 10000000 1000002,
        ArenaEff.payout 21 22 10000000 1000003,
        ArenaEff.setPhase 4]) (by decide)).2.1,
   (claim_timeout_idempotent 101 c7_m 11 12
     ({ c7_m with game_state := 4 },
       [ArenaEff.payout 11 12 10000000 1000002,
        ArenaEff.payout 21 22 10000000 1000003,
        ArenaEff.setPhase 4]) (by decide)).2.2 200 11 12⟩


-- ---------------------------------------------------------------------------
-- C8 — payout identifier bands
-- ---------------------------------------------------------------------------

/-- Inversion for checked `u64` addition. -/
theorem add64_eq (a b n : Nat) (h : add64 a b = some n) : n = a + b := by
  unfold add64 at h
  split at h
  · exact (Option.some.inj h).symm
  · exact Option.noConfusion h


/-- C8 counterexample: two different triggers share a payout identifier.
A timeout claimed in the BothJoined phase (2) refunds with identifiers
1000002 and 1000003; a timeout claimed in the Combat phase (3) at equal
progress refunds with identifiers 1000003 and 1000004. Identifier 1000003
is issued by both, so the bands of distinct triggers are not pairwise
disjoint. -/
theorem payout_id_collision_counterexample :
    (claim_timeout 101 c7_m 11 12).map (fun r => payout_ids r.2) =
      some [1000002, 1000003] ∧
    (claim_timeout 101 c8_m3 11 12).map (fun r => payout_ids r.2) =
      some [1000003, 1000004] ∧
    (1000003 : Nat) ∈ [1000002, 1000003] ∧ (1000003 : Nat) ∈ [1000003, 1000004] := by
  refine ⟨by decide, by decide, by decide, by decide⟩


theorem write_champ_state_round (m : ArenaStorage) (i : Nat) (s : ChampionState)
    (m2 : ArenaStorage) (h : write_champ_state m i s = some m2) :
    m2.round = m.round := by
  unfold write_champ_state at h
  rw [Option.bind_eq_bind, Option.bind_eq_some] at h
  obtain ⟨w, _, h⟩ := h
  split at h
  all_goals
    first
    | exact Option.noConfusion h
    | (obtain rfl := (Option.some.inj h).symm; rfl)


theorem resolve_combat_core_round (m m9 : ArenaStorage)
    (h : resolve_combat_core m = some m9) : m9.round = m.round := by
  unfold resolve_combat_core at h
  simp only [Option.bind_eq_bind, Option.bind_eq_some] at h
  obtain ⟨aa, _, ab, _, sla, _, slb, _, sa, _, sb, _, h⟩ := h
  split at h
  · exact Option.noConfusion h
  split at h
  · exact Option.noConfusion h
  simp only [Option.bind_eq_bind, Option.bind_eq_some, Option.some.injEq] at h
  obtain ⟨pr, _, m1, hw1, m2x, hw2, rfl⟩ := h
  exact (write_champ_state_round _ _ _ _ hw2).trans (write_champ_state_round _ _ _ _ hw1)


theorem post_resolve_payout_ids (m : ArenaStorage) (blk : Nat)
    (r : ArenaStorage × List ArenaEff) (h : post_resolve m blk = some r) :
    ∀ i ∈ payout_ids r.2, i = m.round ∨ i = m.round + 1 := by
  unfold post_resolve at h
  simp only [Option.bind_eq_bind, Option.bind_eq_some] at h
  obtain ⟨a0, _, a1, _, a2, _, b0, _, b1, _, b2, _, h⟩ := h
  try dsimp only at h
  split_ifs at h
  all_goals
    simp only [Option.bind_eq_bind, Option.some_bind, Option.bind_eq_some,
      Option.some.injEq] at h
  all_goals
    first
    | (obtain ⟨x1, hx1, x2, hx2, h⟩ := h
       have hx2e := add64_eq _ _ _ hx2
       obtain rfl := h)
    | (obtain ⟨x1, hx1, h⟩ := h
       obtain rfl := h)
  all_goals intro i hi
  all_goals simp [payout_ids] at hi
  all_goals omega


set_option maxHeartbeats 4000000 in
/-- C8 amended: `claim_timeout` at phase p only issues payout identifiers
from `timeout_band p`; normal resolution (`resolve_current_turn`) only
issues identifiers `round` and `round + 1`. The phase-1 band is disjoint
from the phase-2 and phase-3 bands, but the phase-2 and phase-3 bands
overlap at 1000003, and the resolution identifiers stay clear of every
timeout band only while the round number is below 1000000 — the bands are
not pairwise disjoint as claimed. -/
theorem payout_id_bands :
    (∀ (blk : Nat) (m : ArenaStorage) (p q : Nat) (r : ArenaStorage × List ArenaEff),
       claim_timeout blk m p q = some r →
       ∀ i ∈ payout_ids r.2, i ∈ timeout_band m.game_state) ∧
    (∀ (m : ArenaStorage) (blk : Nat) (r : ArenaStorage × List ArenaEff),
       resolve_current_turn m blk = some r →
       ∀ i ∈ payout_ids r.2, i = m.round ∨ i = m.round + 1) ∧
    (∀ i ∈ timeout_band 1, i ∉ timeout_band 2 ∧ i ∉ timeout_band 3) ∧
    ((1000003 : Nat) ∈ timeout_band 2 ∧ (1000003 : Nat) ∈ timeout_band 3) ∧
    (∀ rnd : Nat, rnd < 1000000 → ∀ ph, 1 ≤ ph → ph ≤ 3 →
       rnd ∉ timeout_band ph ∧ rnd + 1 ∉ timeout_band ph) := by
  refine ⟨?_, ?_, ?_, ⟨by decide, by decide⟩, ?_⟩
  · intro blk m p q r h
    unfold claim_timeout at h
    dsimp only at h
    split_ifs at h
    all_goals
      simp only [Option.bind_eq_bind, Option.some_bind, Option.bind_eq_some,
        Option.some.injEq] at h
    all_goals
      first
      | (obtain ⟨total, _, h⟩ := h
         obtain rfl := h)
      | (obtain rfl := h)
    all_goals
      intro i hi
    all_goals
      simp [payout_ids] at hi
    all_goals
      by_cases hp : m.game_state = 1 <;> simp [timeout_band, hp] <;> omega
  · intro m blk r h
    unfold resolve_current_turn at h
    rw [Option.bind_eq_bind, Option.bind_eq_some] at h
    obtain ⟨m9, hm9, h⟩ := h
    have hround := resolve_combat_core_round m m9 hm9
    have := post_resolve_payout_ids m9 blk r h
    intro i hi
    have hx := this i hi
    omega
  · intro i hi
    simp [timeout_band] at hi
    subst hi
    constructor <;> simp [timeout_band]
  · intro rnd hlt ph h1 h3
    constructor <;>
      · simp only [timeout_band]
        split <;> simp <;> omega


/-- Witness for C8 amended at a concrete input: the timed-out BothJoined
claim on `c7_m` emits payout identifier 1000003, and the theorem places it
inside the phase-2 band. -/
theorem payout_id_bands_witness :
    claim_timeout 101 c7_m 11 12 =
      some ({ c7_m with game_state := 4 },
        [ArenaEff.payout 11 12 10000000 1000002,
         ArenaEff.payout 21 22 10000000 1000003,
         ArenaEff.setPhase 4]) ∧
    (1000003 : Nat) ∈ timeout_band c7_m.game_state :=
  ⟨by decide,
   payout_id_bands.1 101 c7_m 11 12
     ({ c7_m with game_state := 4 },
       [ArenaEff.payout 11 12 10000000 1000002,
        ArenaEff.payout 21 22 10000000 1000003,
        ArenaEff.setPhase 4]) (by decide) 1000003 (by decide)⟩


theorem insert_buff_fields (s : ChampionState) (slot : BuffSlot) (s2 : ChampionState)
    (h : insert_buff s slot = some s2) :
    s2.current_hp = s.current_hp ∧ s2.max_hp = s.max_hp ∧ s2.is_ko = s.is_ko := by
  unfold insert_buff at h
  dsimp only at h
  split_ifs at h
  all_goals
    simp only [Option.bind_eq_bind, Option.bind_eq_some, Option.some.injEq] at h
  all_goals
    obtain ⟨c, _, rfl⟩ := h
  all_goals
    exact ⟨rfl, rfl, rfl⟩


theorem tick_buffs_fields (s s2 : ChampionState) (h : tick_buffs s = some s2) :
    s2.current_hp = s.current_hp ∧ s2.max_hp = s.max_hp ∧ s2.is_ko = s.is_ko := by
  unfold tick_buffs at h
  simp only [Option.bind_eq_bind, Option.bind_eq_some, Option.some.injEq] at h
  obtain ⟨⟨c0, n0⟩, _, ⟨c1, n1⟩, _, ⟨c2, n2⟩, _, ⟨c3, n3⟩, _, ⟨c4, n4⟩, _,
    ⟨c5, n5⟩, _, ⟨c6, n6⟩, _, ⟨c7, n7⟩, _, rfl⟩ := h
  exact ⟨rfl, rfl, rfl⟩


/-- Transfer `stateInv` along field equalities. -/
theorem stateInv_congr (s s2 : ChampionState)
    (h1 : s2.current_hp = s.current_hp) (h2 : s2.max_hp = s.max_hp)
    (h3 : s2.is_ko = s.is_ko) (h : stateInv s) : stateInv s2 := by
  unfold stateInv at h ⊢
  rw [h1, h2, h3]
  exact h


theorem process_burn_tick_inv (s : ChampionState) (evs : List TurnEvent)
    (hinv : stateInv s) : stateInv (process_burn_tick s evs).1 := by
  obtain ⟨hle, hiff⟩ := hinv
  unfold process_burn_tick
  dsimp only
  split_ifs with h1 h2
  · -- burn ticks and knocks out
    refine ⟨by dsimp only; omega, by dsimp only; simp [h2]⟩
  · -- burn ticks, survivor
    simp only [Bool.and_eq_true, Bool.not_eq_true', decide_eq_true_eq] at h1
    refine ⟨by dsimp only; omega, ?_⟩
    dsimp only
    simp [h1.2, h2]
  · exact ⟨hle, hiff⟩


theorem process_burn_tick_ko_mono (s : ChampionState) (evs : List TurnEvent)
    (h : s.is_ko = true) : (process_burn_tick s evs).1.is_ko = true := by
  unfold process_burn_tick
  simp [h]


/-- What one `execute_action` call does to the invariant: the actor's
`is_ko` and `max_hp` are untouched, the target's `is_ko` is never cleared,
and when the actor satisfies the invariant and is alive and the target
satisfies the invariant, both outputs satisfy the invariant. -/
theorem execute_action_spec (c : Champion) (s : ChampionState) (act : TurnAction)
    (d : Champion) (t : ChampionState) (evs : List TurnEvent)
    (s2 t2 : ChampionState) (evs2 : List TurnEvent)
    (h : execute_action c s act d t evs = some (s2, t2, evs2)) :
    s2.is_ko = s.is_ko ∧ s2.max_hp = s.max_hp ∧ t2.max_hp = t.max_hp ∧
    (t.is_ko = true → t2.is_ko = true) ∧
    (stateInv s → s.is_ko = false → stateInv t → stateInv s2 ∧ stateInv t2) := by
  unfold execute_action at h
  simp only [Option.bind_eq_bind, Option.bind_eq_some] at h
  obtain ⟨ab, hab, h⟩ := h
  cases hat : ab.ability_type
  all_goals rw [hat] at h
  case Damage =>
    simp only [Option.bind_eq_bind, Option.bind_eq_some, Option.some.injEq] at h
    obtain ⟨⟨dmg, mult⟩, _, tdd2, _, h⟩ := h
    dsimp only at h
    split_ifs at h with hz
    · simp only [Option.some.injEq, Prod.mk.injEq] at h
      obtain ⟨rfl, rfl, rfl⟩ := h
      refine ⟨rfl, rfl, rfl, fun _ => rfl, fun hs _ ht => ?_⟩
      exact ⟨⟨hs.1, hs.2⟩, ⟨Nat.le_trans (Nat.sub_le _ _) ht.1, by simp [hz]⟩⟩
    · simp only [Option.some.injEq, Prod.mk.injEq] at h
      obtain ⟨rfl, rfl, rfl⟩ := h
      refine ⟨rfl, rfl, rfl, fun hk => hk, fun hs _ ht => ?_⟩
      obtain ⟨htle, htiff⟩ := ht
      refine ⟨⟨hs.1, hs.2⟩, Nat.le_trans (Nat.sub_le _ _) htle, ?_, ?_⟩
      · intro hk
        have hc0 := htiff.mp hk
        dsimp only
        omega
      · intro hc
        dsimp only at hc
        exact absurd hc hz
  case DamageDot =>
    simp only [Option.bind_eq_bind, Option.bind_eq_some, Option.some.injEq] at h
    obtain ⟨⟨dmg, mult⟩, _, tdd2, _, h⟩ := h
    dsimp only at h
    split_ifs at h with hz hb1 hb2
    · -- hp reached 0 yet the burn condition claims the target is alive: impossible
      simp at hb1
    · simp only [Option.some.injEq, Prod.mk.injEq] at h
      obtain ⟨rfl, rfl, rfl⟩ := h
      refine ⟨rfl, rfl, rfl, fun _ => rfl, fun hs _ ht => ?_⟩
      exact ⟨⟨hs.1, hs.2⟩, ⟨Nat.le_trans (Nat.sub_le _ _) ht.1, by simp [hz]⟩⟩
    · simp only [Option.some.injEq, Prod.mk.injEq] at h
      obtain ⟨rfl, rfl, rfl⟩ := h
      refine ⟨rfl, rfl, rfl, fun hk => hk, fun hs _ ht => ?_⟩
      obtain ⟨htle, htiff⟩ := ht
      refine ⟨⟨hs.1, hs.2⟩, Nat.le_trans (Nat.sub_le _ _) htle, ?_, ?_⟩
      · intro hk
        have hc0 := htiff.mp hk
        dsimp only
        omega
      · intro hc
        dsimp only at hc
        exact absurd hc hz
    · simp only [Option.some.injEq, Prod.mk.injEq] at h
      obtain ⟨rfl, rfl, rfl⟩ := h
      refine ⟨rfl, rfl, rfl, fun hk => hk, fun hs _ ht => ?_⟩
      obtain ⟨htle, htiff⟩ := ht
      refine ⟨⟨hs.1, hs.2⟩, Nat.le_trans (Nat.sub_le _ _) htle, ?_, ?_⟩
      · intro hk
        have hc0 := htiff.mp hk
        dsimp only
        omega
      · intro hc
        dsimp only at hc
        exact absurd hc hz
  case Heal =>
    simp only [Option.bind_eq_bind, Option.bind_eq_some, Option.some.injEq] at h
    obtain ⟨sum, hsum, amt, hamt, h⟩ := h
    simp only [Option.some.injEq, Prod.mk.injEq] at h
    obtain ⟨rfl, rfl, rfl⟩ := h
    have hsum2 : sum = s.current_hp + ab.heal_amount := by
      unfold add32 at hsum
      split at hsum
      · exact (Option.some.inj hsum).symm
      · exact Option.noConfusion hsum
    refine ⟨rfl, rfl, rfl, fun hk => hk, fun hs hsa ht => ?_⟩
    obtain ⟨hsle, hsiff⟩ := hs
    have hpos : 1 ≤ s.current_hp := by
      rcases Nat.eq_zero_or_pos s.current_hp with h0 | h1
      · exact absurd (hsiff.mpr h0) (by simp [hsa])
      · exact h1
    refine ⟨⟨?_, ?_⟩, ht⟩
    · dsimp only
      split <;> omega
    · dsimp only
      rw [hsa]
      constructor
      · intro hc
        exact absurd hc (by simp)
      · intro hc
        split at hc <;> omega
  case Buff =>
    split_ifs at h with hcond
    · simp only [Option.bind_eq_bind, Option.bind_eq_some, Option.some.injEq] at h
      obtain ⟨s1, hins, h⟩ := h
      simp only [Option.some.injEq, Prod.mk.injEq] at h
      obtain ⟨rfl, rfl, rfl⟩ := h
      obtain ⟨e1, e2, e3⟩ := insert_buff_fields s _ s1 hins
      refine ⟨e3, e2, rfl, fun hk => hk, fun hs _ ht => ?_⟩
      exact ⟨stateInv_congr s s1 e1 e2 e3 hs, ht⟩
    · simp only [Option.some.injEq, Prod.mk.injEq] at h
      obtain ⟨rfl, rfl, rfl⟩ := h
      exact ⟨rfl, rfl, rfl, fun hk => hk, fun hs _ ht => ⟨hs, ht⟩⟩
  case Debuff =>
    split_ifs at h with hcond
    · simp only [Option.bind_eq_bind, Option.bind_eq_some, Option.some.injEq] at h
      obtain ⟨t1, hins, h⟩ := h
      simp only [Option.some.injEq, Prod.mk.injEq] at h
      obtain ⟨rfl, rfl, rfl⟩ := h
      obtain ⟨e1, e2, e3⟩ := insert_buff_fields t _ t1 hins
      refine ⟨rfl, rfl, e2, fun hk => e3 ▸ hk, fun hs _ ht => ?_⟩
      exact ⟨hs, stateInv_congr t t1 e1 e2 e3 ht⟩
    · simp only [Option.some.injEq, Prod.mk.injEq] at h
      obtain ⟨rfl, rfl, rfl⟩ := h
      exact ⟨rfl, rfl, rfl, fun hk => hk, fun hs _ ht => ⟨hs, ht⟩⟩


theorem finish_turn_inv (a b : ChampionState) (evs : List TurnEvent) (r : TurnResult)
    (h : finish_turn a b evs = some r) (hia : stateInv a) (hib : stateInv b) :
    stateInv r.state_a ∧ stateInv r.state_b := by
  unfold finish_turn at h
  have hinva := process_burn_tick_inv a evs hia
  rcases hpa : process_burn_tick a evs with ⟨a1, ev1⟩
  rw [hpa] at h hinva
  dsimp only at h hinva
  have hinvb := process_burn_tick_inv b ev1 hib
  rcases hpb : process_burn_tick b ev1 with ⟨b1, ev2⟩
  rw [hpb] at h hinvb
  dsimp only at h hinvb
  simp only [Option.bind_eq_bind, Option.bind_eq_some, Option.some.injEq] at h
  obtain ⟨a2, ha2, b2, hb2, rfl⟩ := h
  obtain ⟨e1, e2, e3⟩ := tick_buffs_fields a1 a2 ha2
  obtain ⟨f1, f2, f3⟩ := tick_buffs_fields b1 b2 hb2
  exact ⟨stateInv_congr a1 a2 e1 e2 e3 hinva, stateInv_congr b1 b2 f1 f2 f3 hinvb⟩


theorem act_phase_a_first_inv (ca cb : Champion) (sa sb : ChampionState)
    (aa ab : TurnAction) (r : TurnResult)
    (h : act_phase_a_first ca cb sa sb aa ab = some r)
    (hia : stateInv sa) (hib : stateInv sb)
    (hka : sa.is_ko = false) : stateInv r.state_a ∧ stateInv r.state_b := by
  unfold act_phase_a_first at h
  simp only [Option.bind_eq_bind, Option.bind_eq_some] at h
  obtain ⟨⟨a1, b1, ev1⟩, hex1, h⟩ := h
  obtain ⟨hko1, hmax1, htmax1, hmono1, hinv1⟩ :=
    execute_action_spec ca sa aa cb sb [] a1 b1 ev1 hex1
  obtain ⟨hinva1, hinvb1⟩ := hinv1 hia hka hib
  dsimp only at h
  split_ifs at h with hbk
  · exact finish_turn_inv a1 b1 ev1 r h hinva1 hinvb1
  · simp only [Option.bind_eq_bind, Option.bind_eq_some] at h
    obtain ⟨⟨b2, a2, ev2⟩, hex2, h⟩ := h
    have hbk2 : b1.is_ko = false := by
      cases hv : b1.is_ko
      · rfl
      · exact absurd hv hbk
    obtain ⟨hko2, hmax2, htmax2, hmono2, hinv2⟩ :=
      execute_action_spec cb b1 ab ca a1 ev1 b2 a2 ev2 hex2
    obtain ⟨hinvb2, hinva2⟩ := hinv2 hinvb1 hbk2 hinva1
    exact finish_turn_inv a2 b2 ev2 r h hinva2 hinvb2


theorem act_phase_b_first_inv (ca cb : Champion) (sa sb : ChampionState)
    (aa ab : TurnAction) (r : TurnResult)
    (h : act_phase_b_first ca cb sa sb aa ab = some r)
    (hia : stateInv sa) (hib : stateInv sb)
    (hkb : sb.is_ko = false) : stateInv r.state_a ∧ stateInv r.state_b := by
  unfold act_phase_b_first at h
  simp only [Option.bind_eq_bind, Option.bind_eq_some] at h
  obtain ⟨⟨b1, a1, ev1⟩, hex1, h⟩ := h
  obtain ⟨hko1, hmax1, htmax1, hmono1, hinv1⟩ :=
    execute_action_spec cb sb ab ca sa [] b1 a1 ev1 hex1
  obtain ⟨hinvb1, hinva1⟩ := hinv1 hib hkb hia
  dsimp only at h
  split_ifs at h with hak
  · exact finish_turn_inv a1 b1 ev1 r h hinva1 hinvb1
  · simp only [Option.bind_eq_bind, Option.bind_eq_some] at h
    obtain ⟨⟨a2, b2, ev2⟩, hex2, h⟩ := h
    have hak2 : a1.is_ko = false := by
      cases hv : a1.is_ko
      · rfl
      · exact absurd hv hak
    obtain ⟨hko2, hmax2, htmax2, hmono2, hinv2⟩ :=
      execute_action_spec ca a1 aa cb b1 ev1 a2 b2 ev2 hex2
    obtain ⟨hinva2, hinvb2⟩ := hinv2 hinva1 hak2 hinvb1
    exact finish_turn_inv a2 b2 ev2 r h hinva2 hinvb2


/-- C1: for every pair of input states satisfying the invariant
(`current_hp ≤ max_hp` and `is_ko ↔ current_hp = 0`, the lower bound
`0 ≤ current_hp` being inherent to `Nat`) with both combatants alive,
both output states of a successful `resolve_turn` satisfy the invariant
again; and `is_ko`, once set, is never cleared by any of the turn's
sub-steps — `execute_action` (for actor and target alike),
`process_burn_tick`, and `tick_buffs` each preserve an already-set
`is_ko` flag. -/
theorem resolve_turn_preserves_invariant (sa sb : ChampionState)
    (aa ab : TurnAction) (r : TurnResult)
    (h : resolve_turn sa sb aa ab = some r)
    (hia : stateInv sa) (hib : stateInv sb)
    (hka : sa.is_ko = false) (hkb : sb.is_ko = false) :
    (stateInv r.state_a ∧ stateInv r.state_b) ∧
    (∀ c s act d t evs s2 t2 evs2,
       execute_action c s act d t evs = some (s2, t2, evs2) →
       (s.is_ko = true → s2.is_ko = true) ∧ (t.is_ko = true → t2.is_ko = true)) ∧
    (∀ s evs, s.is_ko = true → (process_burn_tick s evs).1.is_ko = true) ∧
    (∀ s s2, tick_buffs s = some s2 → s.is_ko = true → s2.is_ko = true) := by
  refine ⟨?_, ?_, ?_, ?_⟩
  · unfold resolve_turn at h
    simp only [Option.bind_eq_bind, Option.bind_eq_some] at h
    obtain ⟨ca, hca, cb, hcb, x1, hx1, spa, hspa, x2, hx2, spb, hspb, h⟩ := h
    split_ifs at h with hf
    · exact act_phase_a_first_inv ca cb sa sb aa ab r h hia hib hka
    · exact act_phase_b_first_inv ca cb sa sb aa ab r h hia hib hkb
  · intro c s act d t evs s2 t2 evs2 hex
    obtain ⟨hko, _, _, hmono, _⟩ := execute_action_spec c s act d t evs s2 t2 evs2 hex
    exact ⟨fun hk => hko.trans hk, hmono⟩
  · exact fun s evs hk => process_burn_tick_ko_mono s evs hk
  · intro s s2 hts hk
    obtain ⟨_, _, e3⟩ := tick_buffs_fields s s2 hts
    exact e3.trans hk


theorem resolve_turn_preserves_invariant_witness :
    resolve_turn c1w_a c1w_b ⟨0, 0⟩ ⟨0, 0⟩ = some c1w_r ∧
    stateInv c1w_r.state_a ∧ stateInv c1w_r.state_b :=
  ⟨by decide,
   (resolve_turn_preserves_invariant c1w_a c1w_b ⟨0, 0⟩ ⟨0, 0⟩ c1w_r (by decide)
      ⟨by decide, by decide⟩ ⟨by decide, by decide⟩ rfl rfl).1⟩

end MidenArena
